import Mathlib

/-!
# mdmdirector: reconciliation and command-dispatch engine

A shallow embedding of `director/background_tasks.go` and
`director/enrollment_profile.go`.

* Persistent state is an explicit `DB` value (three tables) that the
  operations take and return.
* Everything outside the two files (clock, HTTP round trips, the URL and JSON
  codecs, file system, persistence errors) is a field of `Env`; the number of
  clock reads, round trips and persistence calls made so far is kept in
  `World`, so that the k-th call may answer differently from the one before.
* A Go pointer that may be nil is an `Option`; dereferencing `none` ends the
  function with `Outcome.panic`.
* `int64` arithmetic is `Int` arithmetic followed by `wrapInt64`.
-/

namespace director

/-! ## Go runtime values -/

/-- A Go `error` value, identified with its message. -/
abbrev Error := String

/-- A Go `[]byte`. -/
abbrev Bytes := List UInt8

/-- How a Go function call ends: it returns, or it panics. -/
inductive Outcome (α : Type) where
  | ret (a : α)
  | panic (msg : String)
deriving DecidableEq, Repr

/-- The runtime panic raised on a nil pointer dereference. -/
def nilDeref : String := "runtime error: invalid memory address or nil pointer dereference"

/-- Two's complement wrap-around of a mathematical integer into `int64`. -/
def wrapInt64 (x : Int) : Int := (x + 2 ^ 63) % 2 ^ 64 - 2 ^ 63

/-- The function `errors.Wrap` of `github.com/pkg/errors`: the message of the
wrapped error is the context, a colon, and the message of the cause. -/
def errors.Wrap (err : Error) (message : String) : Error := message ++ ": " ++ err

/-- The function `strconv.FormatInt`: the digits of `i` in the given base, with a
leading minus sign for a negative number. -/
def strconv.FormatInt (i : Int) (base : Nat) : String :=
  (if i < 0 then "-" else "") ++ String.mk (Nat.toDigits base i.natAbs)

/-! ## `net/url` and `net/http` -/

/-- The fields of `url.URL` that the code reads or writes. -/
structure URL where
  Scheme : String
  Host : String
  Path : String
  RawQuery : String
deriving DecidableEq, Repr

/-- The type `url.Values`, a map from a key to its list of values. -/
abbrev Values := String → List String

/-- The method `url.Values.Set`: the key gets exactly the one value. -/
def Values.Set (v : Values) (key value : String) : Values :=
  fun k => if k = key then [value] else v k

/-- The method `url.Values.Get`: the first value of the key, or the empty string. -/
def Values.Get (v : Values) (key : String) : String :=
  (v key).head?.getD ""

/-- An `http.Request` as the code builds it. -/
structure Request where
  Method : String
  URL : String
  Body : Option String
  BasicAuth : Option (String × String)
deriving DecidableEq, Repr

/-- The method `Request.SetBasicAuth`. -/
def Request.SetBasicAuth (req : Request) (username password : String) : Request :=
  { req with BasicAuth := some (username, password) }

/-- The body of an `http.Response`: what reading it to the end yields, and what
closing it returns. -/
structure ResponseBody where
  data : Bytes
  readErr : Option Error
  closeErr : Option Error
deriving DecidableEq, Repr

/-- An `http.Response`. -/
structure Response where
  StatusCode : Int
  Body : ResponseBody
deriving DecidableEq, Repr

/-- What `http.Client.Do` returns. A transport-level failure gives a nil
response and an error; a failed redirect policy is the only case that gives
both a response and an error. -/
inductive DoResult where
  | response (resp : Response)
  | failure (err : Error)
  | redirectFailure (resp : Response) (err : Error)
deriving DecidableEq, Repr

/-- The `*http.Response` of the pair returned by `client.Do`. -/
def DoResult.resp : DoResult → Option Response
  | .response r => some r
  | .failure _ => none
  | .redirectFailure r _ => some r

/-- The `error` of the pair returned by `client.Do`. -/
def DoResult.err : DoResult → Option Error
  | .response _ => none
  | .failure e => some e
  | .redirectFailure _ e => some e

/-- The function `ioutil.ReadAll` on a response body: the bytes read and the error. -/
def ioutil.ReadAll (body : ResponseBody) : Bytes × Option Error :=
  (body.data, body.readErr)

/-! ## `types` -/

/-- Modelled from the spec: the declaration of `types.Device` is not among the
source files; these are the fields the code and the data model name. `UDID` is
the primary key. -/
structure Device where
  UDID : String
  SerialNumber : String
  Active : Bool
  AuthenticateRecieved : Bool
  TokenUpdateRecieved : Bool
  InitialTasksRun : Bool
  AwaitingConfiguration : Bool
deriving DecidableEq, Repr

/-- The zero value of `types.Device` (`var device types.Device`). -/
def Device.zero : Device :=
  { UDID := "", SerialNumber := "", Active := false, AuthenticateRecieved := false,
    TokenUpdateRecieved := false, InitialTasksRun := false, AwaitingConfiguration := false }

/-- Modelled from the spec: one element of `types.DevicesFromMDM.Devices`, the
inventory record of the upstream server (`udid`, `serial_number`,
`enrollment_status`); the declaration is not among the source files. -/
structure DeviceFromMDM where
  UDID : String
  SerialNumber : String
  EnrollmentStatus : Bool
deriving DecidableEq, Repr

/-- Modelled from the spec: `types.DevicesFromMDM`, the parsed inventory response. -/
structure DevicesFromMDM where
  Devices : List DeviceFromMDM
deriving DecidableEq, Repr

/-- Modelled from the spec: `types.Command`, with the two columns the code
queries; the declaration is not among the source files. -/
structure Command where
  DeviceUDID : String
  Status : String
deriving DecidableEq, Repr

/-- Modelled from the spec: `types.Certificate`; `DeviceUDID` is a nullable
foreign key, `none` being SQL NULL. The declaration is not among the source
files. -/
structure Certificate where
  DeviceUDID : Option String
  Fingerprint : String
deriving DecidableEq, Repr

/-- The three tables of the persistence layer. -/
structure DB where
  devices : List Device
  commands : List Command
  certificates : List Certificate
deriving DecidableEq, Repr

/-! ## Environment and world -/

/-- One line written through the `log` package. -/
inductive LogEntry where
  | error (msg : String)
  | debug (msg : String)
deriving DecidableEq, Repr

/-- Everything the two files call that lives outside them. -/
structure Env where
  /-- The configuration value `utils.ServerURL()`. -/
  ServerURL : String
  /-- The configuration value `utils.ApiKey()`. -/
  ApiKey : String
  /-- The configuration value `utils.DebugMode()`. -/
  DebugMode : Bool
  /-- The function `url.Parse`. -/
  urlParse : String → Except Error URL
  /-- The function `path.Join`. -/
  pathJoin : List String → String
  /-- The method `(*url.URL).Query`, applied to the raw query. -/
  parseQuery : String → Values
  /-- The method `url.Values.Encode`. -/
  encodeQuery : Values → String
  /-- The method `(*url.URL).String`. -/
  urlString : URL → String
  /-- The reading `time.Now().Unix()` of the k-th clock read. -/
  now : Nat → Int
  /-- The answer of the k-th HTTP round trip `client.Do`. -/
  clientDo : Nat → Request → DoResult
  /-- The error, if any, of the k-th call to the persistence layer. -/
  dbErr : Nat → Option Error
  /-- The function `json.Unmarshal` into a `types.DevicesFromMDM`: what the
  target holds afterwards, and the error. -/
  jsonUnmarshal : Bytes → DevicesFromMDM × Option Error

/-- The observable history of a run. -/
structure World where
  /-- Number of clock reads so far. -/
  reads : Nat
  /-- Number of persistence calls so far. -/
  dbCalls : Nat
  /-- The requests handed to `client.Do`, oldest first. -/
  sent : List Request
  /-- The goroutines started with `go pushConcurrent(device, client)`. -/
  spawned : List Device
  /-- The log lines, oldest first. -/
  logs : List LogEntry
deriving DecidableEq, Repr

/-- A fresh history. -/
def World.init : World := { reads := 0, dbCalls := 0, sent := [], spawned := [], logs := [] }

/-- The call `time.Now().Unix()`. -/
def timeNowUnix (env : Env) (w : World) : Int × World :=
  (env.now w.reads, { w with reads := w.reads + 1 })

/-- The call `client.Do(req)`. -/
def clientDo (env : Env) (w : World) (req : Request) : DoResult × World :=
  (env.clientDo w.sent.length req, { w with sent := w.sent ++ [req] })

/-- One call to the persistence layer: its error, if any. -/
def dbCall (env : Env) (w : World) : Option Error × World :=
  (env.dbErr w.dbCalls, { w with dbCalls := w.dbCalls + 1 })

/-- The call `log.Error(err)`. -/
def logError (w : World) (err : Error) : World :=
  { w with logs := w.logs ++ [LogEntry.error err] }

/-- The calls `log.Debug` and `log.Debugf`. -/
def logDebug (w : World) (msg : String) : World :=
  { w with logs := w.logs ++ [LogEntry.debug msg] }

/-- The function `http.NewRequest` with a valid method: it fails exactly when the
URL string does not parse. -/
def http.NewRequest (env : Env) (method url : String) (body : Option String) :
    Except Error Request :=
  match env.urlParse url with
  | .error e => .error e
  | .ok _ => .ok { Method := method, URL := url, Body := body, BasicAuth := none }

/-! ## `director/background_tasks.go` -/

/-- The query of `pushNotNow`,
`Model(&command).Select("DISTINCT(device_ud_id)").Where("status = ?", "NotNow").Scan(&commands)`:
one scanned row for each distinct `device_ud_id` among the commands whose status
is `NotNow`; only the selected column is filled in. SQL leaves the order of the
rows open; the rows are taken here in the order of the last occurrence. -/
def selectDistinctNotNow (commands : List Command) : List Command :=
  (((commands.filter (fun c => c.Status == "NotNow")).map (fun c => c.DeviceUDID)).dedup).map
    (fun udid => { DeviceUDID := udid, Status := "" })

/-- The body of the `for _, queuedCommand := range commands` loop of `pushNotNow`,
iterated over the scanned rows. The errors of `url.Parse` and `http.NewRequest`
are dropped by the code, so a nil endpoint or a nil request is dereferenced. -/
def pushNotNowLoop (env : Env) : List Command → World → World × Outcome Unit
  | [], w => (w, .ret ())
  | queuedCommand :: rest, w =>
    let endpoint := (env.urlParse env.ServerURL).toOption
    let (now, w) := timeNowUnix env w
    let retry := wrapInt64 (now + 3600)
    match endpoint with
    | none => (w, .panic nilDeref)
    | some endpoint =>
      let endpoint := { endpoint with
        Path := env.pathJoin [endpoint.Path, "push", queuedCommand.DeviceUDID] }
      let queryString := env.parseQuery endpoint.RawQuery
      let queryString := queryString.Set "expiration" (strconv.FormatInt retry 10)
      let endpoint := { endpoint with RawQuery := env.encodeQuery queryString }
      match (http.NewRequest env "GET" (env.urlString endpoint) none).toOption with
      | none => (w, .panic nilDeref)
      | some req =>
        let req := req.SetBasicAuth "micromdm" env.ApiKey
        let (res, w) := clientDo env w req
        match res.err with
        | some err => pushNotNowLoop env rest (logError w err)
        | none => pushNotNowLoop env rest w

/-- The function `pushNotNow`. -/
def pushNotNow (env : Env) (db : DB) (w : World) : World × Outcome (Option Error) :=
  let (err, w) := dbCall env w
  match err with
  | some err => (w, .ret (some err))
  | none =>
    match pushNotNowLoop env (selectDistinctNotNow db.commands) w with
    | (w, .ret _) => (w, .ret none)
    | (w, .panic msg) => (w, .panic msg)

/-- The function `pushConcurrent`, the body of one goroutine of `pushAll`. After
logging the error of `client.Do` it goes on to `resp.Body.Close()`. -/
def pushConcurrent (env : Env) (device : Device) (w : World) : World × Outcome Unit :=
  let endpoint := (env.urlParse env.ServerURL).toOption
  let (now, w) := timeNowUnix env w
  let retry := wrapInt64 (now + 3600)
  match endpoint with
  | none => (w, .panic nilDeref)
  | some endpoint =>
    let endpoint := { endpoint with Path := env.pathJoin [endpoint.Path, "push", device.UDID] }
    let queryString := env.parseQuery endpoint.RawQuery
    let queryString := queryString.Set "expiration" (strconv.FormatInt retry 10)
    let endpoint := { endpoint with RawQuery := env.encodeQuery queryString }
    match (http.NewRequest env "GET" (env.urlString endpoint) none).toOption with
    | none => (w, .panic nilDeref)
    | some req =>
      let req := req.SetBasicAuth "micromdm" env.ApiKey
      let (res, w) := clientDo env w req
      let w := match res.err with
        | some err => logError w err
        | none => w
      match res.resp with
      | none => (w, .panic nilDeref)
      | some _ => (w, .ret ())

/-- The function `pushAll`: one goroutine is started for each device; the
goroutines run on their own and are recorded in `World.spawned`. -/
def pushAll (env : Env) (db : DB) (w : World) : World × Option Error :=
  let (err, w) := dbCall env w
  match err with
  | some err => (w, some err)
  | none =>
    let w := logDebug w "Pushing to all in debug mode"
    let w := db.devices.foldl
      (fun w device =>
        let w := logDebug w ("Pushing to " ++ device.UDID)
        { w with spawned := w.spawned ++ [device] }) w
    (w, none)

/-- The function `PushDevice`. -/
def PushDevice (env : Env) (udid : String) (w : World) : World × Option Error :=
  match env.urlParse env.ServerURL with
  | .error err => (w, some (errors.Wrap err "PushDevice"))
  | .ok endpoint =>
    let (now, w) := timeNowUnix env w
    let retry := wrapInt64 (now + 3600)
    let endpoint := { endpoint with Path := env.pathJoin [endpoint.Path, "push", udid] }
    let queryString := env.parseQuery endpoint.RawQuery
    let queryString := queryString.Set "expiration" (strconv.FormatInt retry 10)
    let endpoint := { endpoint with RawQuery := env.encodeQuery queryString }
    match http.NewRequest env "GET" (env.urlString endpoint) none with
    | .error err => (w, some (errors.Wrap err "PushDevice"))
    | .ok req =>
      let req := req.SetBasicAuth "micromdm" env.ApiKey
      let (res, w) := clientDo env w req
      match res with
      | .failure err => (w, some (errors.Wrap err "PushDevice"))
      | .redirectFailure _ err => (w, some (errors.Wrap err "PushDevice"))
      | .response resp =>
        match resp.Body.closeErr with
        | some err => (w, some (errors.Wrap err "PushDevice"))
        | none => (w, none)

/-- The deletion of `processScheduledCheckin`,
`Unscoped().Model(&certificates).Where("device_ud_id is NULL").Delete(&types.Certificate{})`:
a hard delete of the rows whose `device_ud_id` is NULL. -/
def deleteNullCertificates (certificates : List Certificate) : List Certificate :=
  certificates.filter (fun c => c.DeviceUDID.isSome)

/-- The function `processScheduledCheckin`. A persistence call that returns an
error leaves the tables as they were. -/
def processScheduledCheckin (env : Env) (db : DB) (w : World) : DB × World × Option Error :=
  let w := if env.DebugMode then logDebug w "Processing scheduledCheckin in debug mode" else w
  match pushAll env db w with
  | (w, some err) => (db, w, some err)
  | (w, none) =>
    let (err, w) := dbCall env w
    match err with
    | some err =>
      (db, w, some (errors.Wrap err "processScheduledCheckin::CleanupNullCertificates"))
    | none => ({ db with certificates := deleteNullCertificates db.certificates }, w, none)

/-- The call `Model(&deviceModel).Where("ud_id = ?", udid).FirstOrCreate(&device)`:
when a row with that `ud_id` exists it is loaded and nothing is written,
otherwise `device` is inserted. An error leaves the table as it was. -/
def FirstOrCreate (env : Env) (rows : List Device) (w : World) (udid : String)
    (device : Device) : List Device × World × Option Error :=
  let (err, w) := dbCall env w
  match err with
  | some err => (rows, w, some err)
  | none =>
    match rows.find? (fun row => row.UDID == udid) with
    | some _ => (rows, w, none)
    | none => (rows ++ [device], w, none)

/-- The `types.Device` that the import loop of `FetchDevicesFromMDM` builds from
one inventory record. -/
def deviceFromMDM (newDevice : DeviceFromMDM) : Device :=
  let device := Device.zero
  let device := { device with UDID := newDevice.UDID }
  let device := { device with SerialNumber := newDevice.SerialNumber }
  let device := { device with Active := newDevice.EnrollmentStatus }
  if newDevice.EnrollmentStatus == true then
    { device with AuthenticateRecieved := true, TokenUpdateRecieved := true,
                  InitialTasksRun := true }
  else device

/-- The loop `for _, newDevice := range devices.Devices` of `FetchDevicesFromMDM`. -/
def importDevices (env : Env) : List DeviceFromMDM → List Device → World → List Device × World
  | [], rows, w => (rows, w)
  | newDevice :: rest, rows, w =>
    let device := deviceFromMDM newDevice
    if newDevice.UDID == "" then importDevices env rest rows w
    else
      match FirstOrCreate env rows w newDevice.UDID device with
      | (rows, w, some err) => importDevices env rest rows (logError w err)
      | (rows, w, none) => importDevices env rest rows w

/-- The function `FetchDevicesFromMDM`. The errors of `url.Parse` and
`http.NewRequest` are dropped, and after logging the error of `client.Do` the
code goes on to `defer resp.Body.Close()`, which reads `resp.Body`. -/
def FetchDevicesFromMDM (env : Env) (db : DB) (w : World) : DB × World × Outcome Unit :=
  match (env.urlParse env.ServerURL).toOption with
  | none => (db, w, .panic nilDeref)
  | some endpoint =>
    let endpoint := { endpoint with Path := env.pathJoin [endpoint.Path, "v1", "devices"] }
    match (http.NewRequest env "POST" (env.urlString endpoint) (some "{}")).toOption with
    | none => (db, w, .panic nilDeref)
    | some req =>
      let req := req.SetBasicAuth "micromdm" env.ApiKey
      let (res, w) := clientDo env w req
      let w := match res.err with
        | some err => logError w err
        | none => w
      match res.resp with
      | none => (db, w, .panic nilDeref)
      | some resp =>
        let (responseData, err) := ioutil.ReadAll resp.Body
        let w := match err with
          | some err => logError w err
          | none => w
        let (devices, err) := env.jsonUnmarshal responseData
        let w := match err with
          | some err => logError w err
          | none => w
        let (rows, w) := importDevices env devices.Devices db.devices w
        ({ db with devices := rows }, w, .ret ())

/-! ## `director/enrollment_profile.go` -/

/-- Modelled from the spec: one entry of `types.ProfileList.PayloadContent`; the
declaration is not among the source files. -/
structure PayloadContent where
  PayloadType : String
  PayloadUUID : String
  PayloadIdentifier : String
deriving DecidableEq, Repr

/-- Modelled from the spec: `types.ProfileList`, one installed profile as the
device reports it; the declaration is not among the source files. -/
structure ProfileList where
  PayloadUUID : String
  PayloadIdentifier : String
  PayloadContent : List PayloadContent
deriving DecidableEq, Repr

/-- Modelled from the spec: `types.DeviceProfile`, the desired profile; the
declaration is not among the source files. -/
structure DeviceProfile where
  PayloadUUID : String
  PayloadIdentifier : String
  MobileconfigData : Bytes
deriving DecidableEq, Repr

/-- Modelled from the spec: `types.CommandPayload`, with the fields the code
sets; the declaration is not among the source files. -/
structure CommandPayload where
  UDID : String
  RequestType : String
  Payload : String
deriving DecidableEq, Repr

/-- The zero value of `types.CommandPayload`. -/
def CommandPayload.zero : CommandPayload := { UDID := "", RequestType := "", Payload := "" }

/-- Modelled from the spec: the comparison request `ProfileForVerification`, with
the five fields the code sets; the declaration is not among the source files. -/
structure ProfileForVerification where
  PayloadUUID : String
  PayloadIdentifier : String
  HashedPayloadUUID : String
  DeviceUDID : String
  Installed : Bool
deriving DecidableEq, Repr

/-- The argument of `InfoLogger` and `DebugLogger`, with the fields the code sets. -/
structure LogHolder where
  DeviceSerial : String
  DeviceUDID : String
  Message : String
deriving DecidableEq, Repr

/-- An `x509.Certificate`, identified with its encoding. -/
structure x509.Certificate where
  Raw : Bytes
deriving DecidableEq, Repr

/-- The calls that leave `enrollment_profile.go`, and the entry into
`reinstallEnrollmentProfile`. -/
inductive Event where
  | validateProfileInProfileList (profile : ProfileForVerification)
      (profileLists : List ProfileList) (signingCert : Option x509.Certificate)
  | reinstallEnrollmentProfile (device : Device)
  | ReadFile (filename : String)
  | InfoLogger (holder : LogHolder)
  | DebugLogger (holder : LogHolder)
  | SendCommand (commandPayload : CommandPayload)
  | PushProfiles (devices : List Device) (profiles : List DeviceProfile)
deriving DecidableEq, Repr

/-- What `enrollment_profile.go` calls that lives outside it. -/
structure ProfileEnv where
  /-- The configuration value `utils.Sign()`. -/
  Sign : Bool
  /-- The configuration value `utils.SignedEnrollmentProfile()`. -/
  SignedEnrollmentProfile : Bool
  /-- The configuration value `utils.EnrollmentProfile()`. -/
  EnrollmentProfile : String
  /-- The function `ioutil.ReadFile`. -/
  ReadFile : String → Except Error Bytes
  /-- The function `plist.Unmarshal` into a `types.DeviceProfile`. -/
  plistUnmarshal : Bytes → Except Error DeviceProfile
  /-- The function `base64.StdEncoding.EncodeToString`. -/
  EncodeToString : Bytes → String
  /-- The error returned by `SendCommand`; the command it returns is dropped by the code. -/
  SendCommand : CommandPayload → Option Error
  /-- The error returned by `PushProfiles`; the commands it returns are dropped by the code. -/
  PushProfiles : List Device → List DeviceProfile → Option Error
  /-- The function `validateProfileInProfileList`, which is not among the source
  files: its three results, the second being `needsReinstall`. -/
  validateProfileInProfileList :
    ProfileForVerification → List ProfileList → Option x509.Certificate →
      Bool × Bool × Option Error

/-- The function `reinstallEnrollmentProfile`. -/
def reinstallEnrollmentProfile (env : ProfileEnv) (device : Device) :
    List Event × Option Error :=
  let enrollmentProfile := env.EnrollmentProfile
  let events := [Event.reinstallEnrollmentProfile device, Event.ReadFile enrollmentProfile]
  match env.ReadFile enrollmentProfile with
  | .error err => (events, some (errors.Wrap err "Failed to read enrollment profile"))
  | .ok data =>
    match env.plistUnmarshal data with
    | .error err =>
      (events, some (errors.Wrap err "Failed to unmarshal enrollment profile to struct"))
    | .ok profile =>
      let profile := { profile with MobileconfigData := data }
      let events := events ++ [Event.InfoLogger
        { DeviceSerial := device.SerialNumber, DeviceUDID := device.UDID,
          Message := "Pushing new enrollment profile" }]
      if env.SignedEnrollmentProfile then
        let events := events ++ [Event.DebugLogger
          { DeviceUDID := device.UDID, DeviceSerial := device.SerialNumber,
            Message := "Enrollment Profile pre-signed" }]
        let commandPayload := CommandPayload.zero
        let commandPayload := { commandPayload with RequestType := "InstallProfile" }
        let commandPayload := { commandPayload with
          Payload := env.EncodeToString profile.MobileconfigData }
        let commandPayload := { commandPayload with UDID := device.UDID }
        let events := events ++ [Event.SendCommand commandPayload]
        match env.SendCommand commandPayload with
        | some err => (events, some (errors.Wrap err "Failed to push enrollment profile"))
        | none => (events, none)
      else
        let events := events ++ [Event.DebugLogger
          { DeviceUDID := device.UDID, DeviceSerial := device.SerialNumber,
            Message := "Signing Enrollment Profile" }]
        let events := events ++ [Event.PushProfiles [device] [profile]]
        match env.PushProfiles [device] [profile] with
        | some err => (events, some (errors.Wrap err "Failed to push enrollment profile"))
        | none => (events, none)

/-- The body of the `if ... PayloadType == "com.apple.mdm"` branch of
`ensureCertOnEnrollmentProfile`, for the profile `profileLists[i]`; it always
returns from the function. -/
def ensureCertFound (env : ProfileEnv) (device : Device) (profileLists : List ProfileList)
    (signingCert : Option x509.Certificate) (profile : ProfileList) :
    List Event × Option Error :=
  let profileForVerification : ProfileForVerification :=
    { PayloadUUID := profile.PayloadUUID,
      PayloadIdentifier := profile.PayloadIdentifier,
      HashedPayloadUUID := profile.PayloadUUID,
      DeviceUDID := device.UDID,
      Installed := true }
  let events := [Event.validateProfileInProfileList profileForVerification profileLists
    signingCert]
  match env.validateProfileInProfileList profileForVerification profileLists signingCert with
  | (_, _, some err) => (events, some (errors.Wrap err "validateProfileInProfileList"))
  | (_, needsReinstall, none) =>
    if needsReinstall then
      match reinstallEnrollmentProfile env device with
      | (more, some err) => (events ++ more, some (errors.Wrap err "reinstallEnrollmentProfile"))
      | (more, none) => (events ++ more, none)
    else (events, none)

/-- The inner loop `for j := range profileLists[i].PayloadContent`: `none` when
the loop ends without returning from the function. -/
def ensureCertPayloads (env : ProfileEnv) (device : Device) (profileLists : List ProfileList)
    (signingCert : Option x509.Certificate) (profile : ProfileList) :
    List PayloadContent → Option (List Event × Option Error)
  | [] => none
  | payload :: rest =>
    if payload.PayloadType == "com.apple.mdm" then
      some (ensureCertFound env device profileLists signingCert profile)
    else ensureCertPayloads env device profileLists signingCert profile rest

/-- The outer loop `for i := range profileLists`, followed by the final
`return nil`. -/
def ensureCertProfiles (env : ProfileEnv) (device : Device) (profileLists : List ProfileList)
    (signingCert : Option x509.Certificate) : List ProfileList → List Event × Option Error
  | [] => ([], none)
  | profile :: rest =>
    match ensureCertPayloads env device profileLists signingCert profile
        profile.PayloadContent with
    | some result => result
    | none => ensureCertProfiles env device profileLists signingCert rest

/-- The function `ensureCertOnEnrollmentProfile`: the calls it makes, in order,
and the error it returns. -/
def ensureCertOnEnrollmentProfile (env : ProfileEnv) (device : Device)
    (profileLists : List ProfileList) (signingCert : Option x509.Certificate) :
    List Event × Option Error :=
  if !env.Sign then ([], none)
  else ensureCertProfiles env device profileLists signingCert profileLists

/-! ## Vocabulary of the statements -/

/-- Whether an installed profile contains a payload of type `com.apple.mdm`. -/
def hasMDMPayload (profile : ProfileList) : Bool :=
  profile.PayloadContent.any (fun payload => payload.PayloadType == "com.apple.mdm")

/-- Whether an event is a call of `validateProfileInProfileList`. -/
def Event.isValidation : Event → Bool
  | .validateProfileInProfileList _ _ _ => true
  | _ => false

/-- Whether an event issues an install command: a call of `SendCommand` or of
`PushProfiles`. -/
def Event.isInstallCommand : Event → Bool
  | .SendCommand _ => true
  | .PushProfiles _ _ => true
  | _ => false

/-- The wake request of the push dispatcher for one device: a GET to the
server URL whose path is joined with `push` and the UDID and whose query has
`expiration` set to the decimal rendering of `retry`, with the basic-auth
identity `micromdm` and the configured API key. -/
def wakeRequest (env : Env) (base : URL) (udid : String) (retry : Int) : Request :=
  { Method := "GET"
    URL := env.urlString
      { base with
        Path := env.pathJoin [base.Path, "push", udid]
        RawQuery := env.encodeQuery
          (Values.Set (env.parseQuery base.RawQuery) "expiration" (strconv.FormatInt retry 10)) }
    Body := none
    BasicAuth := some ("micromdm", env.ApiKey) }

/-- One wake request for each UDID of the list, in order, the first built at
clock read number `k`, the next at `k + 1`, and so on. -/
def wakeRequestsFrom (env : Env) (base : URL) : List String → Nat → List Request
  | [], _ => []
  | udid :: rest, k =>
    wakeRequest env base udid (wrapInt64 (env.now k + 3600)) ::
      wakeRequestsFrom env base rest (k + 1)

/-- The UDIDs of the rows that the query of `pushNotNow` scans. -/
def notNowUDIDs (commands : List Command) : List String :=
  (selectDistinctNotNow commands).map (fun c => c.DeviceUDID)

/-! ## Sample environments and data -/

/-- An environment in which every call succeeds: the server URL parses, every
round trip answers 200 with an empty body that closes cleanly, the persistence
layer returns no error, and the clock advances ten seconds per reading. The
codecs are small stand-ins: `urlParse` rejects `":"` (missing protocol scheme),
parses the server URL into scheme and host, and accepts every other string,
for which the code only looks at success or failure; `pathJoin` joins the
non-empty elements with a slash; the query holds the one key `expiration`. -/
def sampleEnv : Env :=
  { ServerURL := "https://mdm.example.com"
    ApiKey := "secret"
    DebugMode := false
    urlParse := fun s =>
      if s = ":" then .error "missing protocol scheme"
      else if s = "https://mdm.example.com" then
        .ok { Scheme := "https", Host := "mdm.example.com", Path := "", RawQuery := "" }
      else .ok { Scheme := "", Host := "", Path := s, RawQuery := "" }
    pathJoin := fun elems => "/".intercalate (elems.filter (fun e => e ≠ ""))
    parseQuery := fun _ _ => []
    encodeQuery := fun v => "expiration=" ++ Values.Get v "expiration"
    urlString := fun u => u.Scheme ++ "://" ++ u.Host ++ "/" ++ u.Path ++ "?" ++ u.RawQuery
    now := fun k => 1700000000 + 10 * k
    clientDo := fun _ _ =>
      .response { StatusCode := 200, Body := { data := [], readErr := none, closeErr := none } }
    dbErr := fun _ => none
    jsonUnmarshal := fun _ => ({ Devices := [] }, none) }

/-- The sample environment with an upstream server that cannot be reached: every
round trip fails at the transport level. -/
def offlineEnv : Env :=
  { sampleEnv with clientDo := fun _ _ => .failure "dial tcp: connection refused" }

/-- The sample environment with a server URL that `url.Parse` rejects. -/
def badURLEnv : Env :=
  { sampleEnv with ServerURL := ":" }

/-- The sample environment with a persistence layer whose every call fails. -/
def dbDownEnv : Env :=
  { sampleEnv with dbErr := fun _ => some "sql: database is closed" }

/-- The sample environment with an upstream server that answers every round trip
with the given status code and a body whose `Close` returns an error. -/
def closeFailsEnv (status : Int) : Env :=
  { sampleEnv with
    clientDo := fun _ _ =>
      .response
        { StatusCode := status
          Body := { data := [], readErr := none, closeErr := some "close failed" } } }

/-- The sample environment with an upstream server that keeps redirecting: every
round trip ends with the redirect policy giving up, so that `client.Do` returns
the last response (302, a body that closes cleanly) together with an error. -/
def redirectFailsEnv : Env :=
  { sampleEnv with
    clientDo := fun _ _ =>
      .redirectFailure
        { StatusCode := 302
          Body := { data := [], readErr := none, closeErr := none } }
        "stopped after 10 redirects" }

/-- An enrolled inventory record. -/
def sampleRecord : DeviceFromMDM :=
  { UDID := "ABC123", SerialNumber := "C02XL0", EnrollmentStatus := true }

/-- A row for the UDID of `sampleRecord` with no flag set. -/
def staleRow : Device :=
  { UDID := "ABC123", SerialNumber := "C02XL0", Active := false, AuthenticateRecieved := false,
    TokenUpdateRecieved := false, InitialTasksRun := false, AwaitingConfiguration := true }

/-- An environment with profile signing enabled and a pre-signed enrollment
profile on disk; validation asks for a reinstall exactly when the profile under
verification is not the one with UUID `"ENROLL-1"`. -/
def sampleProfileEnv : ProfileEnv :=
  { Sign := true
    SignedEnrollmentProfile := true
    EnrollmentProfile := "/etc/mdmdirector/enroll.mobileconfig"
    ReadFile := fun _ => .ok [60, 112, 62]
    plistUnmarshal := fun _ =>
      .ok { PayloadUUID := "ENROLL-1", PayloadIdentifier := "com.example.enroll",
            MobileconfigData := [] }
    EncodeToString := fun _ => "PHA+"
    SendCommand := fun _ => none
    PushProfiles := fun _ _ => none
    validateProfileInProfileList := fun profile _ _ =>
      (true, profile.PayloadUUID != "ENROLL-1", none) }

/-- An installed Wi-Fi profile: no payload of type `com.apple.mdm`. -/
def wifiProfile : ProfileList :=
  { PayloadUUID := "WIFI-1", PayloadIdentifier := "com.example.wifi",
    PayloadContent := [{ PayloadType := "com.apple.wifi.managed", PayloadUUID := "WIFI-1-P",
                         PayloadIdentifier := "com.example.wifi.payload" }] }

/-- An installed enrollment profile signed under an older identity: its payload
list holds a certificate payload and then the `com.apple.mdm` payload. -/
def oldEnrollmentProfile : ProfileList :=
  { PayloadUUID := "ENROLL-0", PayloadIdentifier := "com.example.enroll",
    PayloadContent := [{ PayloadType := "com.apple.security.pkcs12", PayloadUUID := "ENROLL-0-C",
                         PayloadIdentifier := "com.example.enroll.identity" },
                       { PayloadType := "com.apple.mdm", PayloadUUID := "ENROLL-0-M",
                         PayloadIdentifier := "com.example.enroll.mdm" }] }

/-- A command table with three `NotNow` commands for `"X"`, one for `"Y"`, and
an acknowledged command for `"Z"`. -/
def sampleCommands : List Command :=
  [{ DeviceUDID := "X", Status := "NotNow" }, { DeviceUDID := "Y", Status := "NotNow" },
   { DeviceUDID := "X", Status := "NotNow" }, { DeviceUDID := "Z", Status := "Acknowledged" },
   { DeviceUDID := "X", Status := "NotNow" }]

/-- A persistent state with one device, the sample commands, one orphaned
certificate and one certificate that belongs to the device. -/
def sampleDB : DB :=
  { devices := [staleRow]
    commands := sampleCommands
    certificates := [{ DeviceUDID := none, Fingerprint := "aa:01" },
                     { DeviceUDID := some "ABC123", Fingerprint := "bb:02" }] }

/-- The parsed server URL of `sampleEnv`. -/
def sampleBase : URL :=
  { Scheme := "https", Host := "mdm.example.com", Path := "", RawQuery := "" }

/-! ## Device import -/

theorem deviceFromMDM_UDID (r : DeviceFromMDM) : (deviceFromMDM r).UDID = r.UDID := by
  unfold deviceFromMDM
  cases r.EnrollmentStatus <;> simp [Device.zero]

theorem deviceFromMDM_enrolled (r : DeviceFromMDM) (h : r.EnrollmentStatus = true) :
    deviceFromMDM r =
      { UDID := r.UDID, SerialNumber := r.SerialNumber, Active := true,
        AuthenticateRecieved := true, TokenUpdateRecieved := true, InitialTasksRun := true,
        AwaitingConfiguration := false } := by
  simp [deviceFromMDM, Device.zero, h]

theorem find_UDID_eq_none {rows : List Device} {udid : String} :
    rows.find? (fun row => row.UDID == udid) = none ↔ ∀ d ∈ rows, d.UDID ≠ udid := by
  simp [List.find?_eq_none]

/-- One find-or-create call either leaves the table alone or appends the device,
and it appends only when no row has the key. -/
theorem FirstOrCreate_cases (env : Env) (rows : List Device) (w : World) (udid : String)
    (device : Device) :
    (FirstOrCreate env rows w udid device).1 = rows ∨
      ((FirstOrCreate env rows w udid device).1 = rows ++ [device] ∧
        env.dbErr w.dbCalls = none ∧ ∀ d ∈ rows, d.UDID ≠ udid) := by
  unfold FirstOrCreate dbCall
  cases herr : env.dbErr w.dbCalls with
  | some e => simp
  | none =>
    cases hfind : rows.find? (fun row => row.UDID == udid) with
    | some d => simp
    | none =>
      right
      simp
      exact find_UDID_eq_none.mp hfind

/-- The table after an import is the table before it followed by the rows that
the import created; each created row comes from an inventory record with a
non-empty UDID that had no row when it was reached. -/
theorem importDevices_created (env : Env) (inventory : List DeviceFromMDM) :
    ∀ (rows : List Device) (w : World),
      ∃ created : List Device,
        (importDevices env inventory rows w).1 = rows ++ created ∧
        (∀ d ∈ created, ∃ r ∈ inventory, r.UDID ≠ "" ∧ d = deviceFromMDM r ∧
            ∀ x ∈ rows, x.UDID ≠ r.UDID) ∧
        created.length ≤ inventory.countP (fun r => r.UDID != "") ∧
        ((rows.map Device.UDID).Nodup → ((rows ++ created).map Device.UDID).Nodup) := by
  induction inventory with
  | nil =>
    intro rows w
    exact ⟨[], by simp [importDevices]⟩
  | cons r rest ih =>
    intro rows w
    by_cases hempty : r.UDID = ""
    · obtain ⟨created, h1, h2, h3, h4⟩ := ih rows w
      refine ⟨created, ?_, ?_, ?_, h4⟩
      · simp [importDevices, hempty, h1]
      · intro d hd
        obtain ⟨r', hr', hrest⟩ := h2 d hd
        exact ⟨r', List.mem_cons_of_mem _ hr', hrest⟩
      · simpa [List.countP_cons, hempty] using h3
    · have hstep : ∀ rows1 w1, (importDevices env (r :: rest) rows w).1
            = (importDevices env rest rows1 w1).1 →
          (rows1 = rows ∨ (rows1 = rows ++ [deviceFromMDM r] ∧ ∀ d ∈ rows, d.UDID ≠ r.UDID)) →
          ∃ created : List Device,
            (importDevices env (r :: rest) rows w).1 = rows ++ created ∧
            (∀ d ∈ created, ∃ r' ∈ r :: rest, r'.UDID ≠ "" ∧ d = deviceFromMDM r' ∧
                ∀ x ∈ rows, x.UDID ≠ r'.UDID) ∧
            created.length ≤ (r :: rest).countP (fun r => r.UDID != "") ∧
            ((rows.map Device.UDID).Nodup →
              ((rows ++ created).map Device.UDID).Nodup) := by
        intro rows1 w1 heq hrows1
        obtain ⟨created, h1, h2, h3, h4⟩ := ih rows1 w1
        rcases hrows1 with hsame | ⟨happ, hfresh⟩
        · subst hsame
          refine ⟨created, heq.trans h1, ?_, ?_, h4⟩
          · intro d hd
            obtain ⟨r', hr', hrest⟩ := h2 d hd
            exact ⟨r', List.mem_cons_of_mem _ hr', hrest⟩
          · have : (r :: rest).countP (fun r => r.UDID != "")
                = rest.countP (fun r => r.UDID != "") + 1 := by
              simp [List.countP_cons, hempty]
            omega
        · subst happ
          refine ⟨deviceFromMDM r :: created, ?_, ?_, ?_, ?_⟩
          · rw [heq, h1]; simp
          · intro d hd
            rcases List.mem_cons.mp hd with hd | hd
            · exact ⟨r, List.mem_cons_self _ _, hempty, hd, hfresh⟩
            · obtain ⟨r', hr', hne, hdr, hx⟩ := h2 d hd
              exact ⟨r', List.mem_cons_of_mem _ hr', hne, hdr,
                fun x hx' => hx x (List.mem_append_left _ hx')⟩
          · have : (r :: rest).countP (fun r => r.UDID != "")
                = rest.countP (fun r => r.UDID != "") + 1 := by
              simp [List.countP_cons, hempty]
            simp only [List.length_cons]
            omega
          · intro hnodup
            have hnd : ((rows ++ [deviceFromMDM r]).map Device.UDID).Nodup := by
              rw [List.map_append, List.nodup_append]
              refine ⟨hnodup, by simp, ?_⟩
              intro a ha hb
              simp only [List.map_cons, List.map_nil, List.mem_singleton] at hb
              obtain ⟨x, hx, hxa⟩ := List.mem_map.mp ha
              exact hfresh x hx (by rw [hxa, hb, deviceFromMDM_UDID])
            have := h4 hnd
            simpa using this
      rcases FirstOrCreate_cases env rows w r.UDID (deviceFromMDM r) with hc | ⟨hc, _, hfresh⟩
      · cases hres : FirstOrCreate env rows w r.UDID (deviceFromMDM r) with
        | mk rows1 rem =>
          cases rem with
          | mk w1 err =>
            rw [hres] at hc
            simp only at hc
            cases err with
            | some e =>
              exact hstep rows1 (logError w1 e)
                (by simp [importDevices, hempty, hres]) (Or.inl hc)
            | none =>
              exact hstep rows1 w1 (by simp [importDevices, hempty, hres]) (Or.inl hc)
      · cases hres : FirstOrCreate env rows w r.UDID (deviceFromMDM r) with
        | mk rows1 rem =>
          cases rem with
          | mk w1 err =>
            rw [hres] at hc
            simp only at hc
            cases err with
            | some e =>
              exact hstep rows1 (logError w1 e)
                (by simp [importDevices, hempty, hres]) (Or.inr ⟨hc, hfresh⟩)
            | none =>
              exact hstep rows1 w1 (by simp [importDevices, hempty, hres])
                (Or.inr ⟨hc, hfresh⟩)

theorem importDevices_append (env : Env) (pre rest : List DeviceFromMDM) :
    ∀ (rows : List Device) (w : World),
      (importDevices env (pre ++ rest) rows w) =
        (importDevices env rest (importDevices env pre rows w).1
          (importDevices env pre rows w).2) := by
  induction pre with
  | nil => intro rows w; simp [importDevices]
  | cons r pre ih =>
    intro rows w
    by_cases hempty : r.UDID = ""
    · simp [importDevices, hempty, ih]
    · cases hres : FirstOrCreate env rows w r.UDID (deviceFromMDM r) with
      | mk rows1 rem =>
        cases rem with
        | mk w1 err =>
          cases err with
          | some e => simp [importDevices, hempty, hres, ih]
          | none => simp [importDevices, hempty, hres, ih]

/-- Each inventory record with a non-empty UDID costs exactly one persistence call. -/
theorem importDevices_dbCalls (env : Env) (inventory : List DeviceFromMDM) :
    ∀ (rows : List Device) (w : World),
      (importDevices env inventory rows w).2.dbCalls =
        w.dbCalls + inventory.countP (fun r => r.UDID != "") := by
  induction inventory with
  | nil => intro rows w; simp [importDevices]
  | cons r rest ih =>
    intro rows w
    by_cases hempty : r.UDID = ""
    · simp [importDevices, hempty, ih]
    · have hw : (FirstOrCreate env rows w r.UDID (deviceFromMDM r)).2.1.dbCalls
          = w.dbCalls + 1 := by
        unfold FirstOrCreate dbCall
        cases env.dbErr w.dbCalls with
        | some e => simp
        | none =>
          cases rows.find? (fun row => row.UDID == r.UDID) with
          | some d => simp
          | none => simp
      cases hres : FirstOrCreate env rows w r.UDID (deviceFromMDM r) with
      | mk rows1 rem =>
        cases rem with
        | mk w1 err =>
          rw [hres] at hw
          simp only at hw
          cases err with
          | some e =>
            simp [importDevices, hempty, hres, ih, logError, hw, List.countP_cons]
            omega
          | none =>
            simp [importDevices, hempty, hres, ih, hw, List.countP_cons]
            omega

/-- A row that is in the table before an import is the row found under its key
after the import. -/
theorem importDevices_find_existing (env : Env) (inventory : List DeviceFromMDM)
    (rows : List Device) (w : World) (udid : String) (d : Device)
    (h : rows.find? (fun row => row.UDID == udid) = some d) :
    (importDevices env inventory rows w).1.find? (fun row => row.UDID == udid) = some d := by
  obtain ⟨created, h1, _⟩ := importDevices_created env inventory rows w
  rw [h1, List.find?_append, h]
  rfl

/-- An import creates no row under a key that no inventory record carries. -/
theorem importDevices_find_none (env : Env) (inventory : List DeviceFromMDM)
    (rows : List Device) (w : World) (udid : String)
    (hrows : ∀ d ∈ rows, d.UDID ≠ udid) (hinv : ∀ r ∈ inventory, r.UDID ≠ udid) :
    ∀ d ∈ (importDevices env inventory rows w).1, d.UDID ≠ udid := by
  obtain ⟨created, h1, h2, _⟩ := importDevices_created env inventory rows w
  rw [h1]
  intro d hd
  rcases List.mem_append.mp hd with hd | hd
  · exact hrows d hd
  · obtain ⟨r, hr, _, hdr, _⟩ := h2 d hd
    rw [hdr, deviceFromMDM_UDID]
    exact hinv r hr

theorem FetchDevicesFromMDM_devices (env : Env) (db : DB) (w : World) :
    (FetchDevicesFromMDM env db w).1.devices = db.devices ∨
      ∃ inventory w1,
        (FetchDevicesFromMDM env db w).1.devices =
          (importDevices env inventory db.devices w1).1 := by
  unfold FetchDevicesFromMDM
  cases (env.urlParse env.ServerURL).toOption with
  | none => left; rfl
  | some endpoint =>
    simp only
    cases (http.NewRequest env "POST" (env.urlString
        { endpoint with Path := env.pathJoin [endpoint.Path, "v1", "devices"] })
        (some "{}")).toOption with
    | none => left; rfl
    | some req =>
      simp only
      cases (clientDo env w (req.SetBasicAuth "micromdm" env.ApiKey)).1.resp with
      | none => left; rfl
      | some resp => right; exact ⟨_, _, rfl⟩

/-- C1: `FetchDevicesFromMDM` never persists a record whose UDID is empty. For
every prior device table and every parsed inventory list, the table after
the import loop is the prior table followed by the newly created rows, no newly
created row has UDID `""`, and the number of rows created is at most the number
of inventory records with a non-empty UDID; the same holds for the table left
by the whole function. An inventory of one record with udid `""` and one with
udid `"ABC123"`, imported into an empty table, yields at most one row, and,
when the one find-or-create call returns no error, exactly one row, with UDID
`"ABC123"`. -/
theorem C1_import_never_persists_empty_UDID (env : Env) (inventory : List DeviceFromMDM)
    (rows : List Device) (w : World) (db : DB) :
    (importDevices env inventory rows w).1.take rows.length = rows ∧
    (∀ d ∈ (importDevices env inventory rows w).1.drop rows.length, d.UDID ≠ "") ∧
    ((importDevices env inventory rows w).1.drop rows.length).length
      ≤ inventory.countP (fun r => r.UDID != "") ∧
    ((FetchDevicesFromMDM env db w).1.devices.take db.devices.length = db.devices ∧
      ∀ d ∈ (FetchDevicesFromMDM env db w).1.devices.drop db.devices.length, d.UDID ≠ "") ∧
    (∀ serial1 serial2 status1 status2,
      (importDevices env
        [{ UDID := "", SerialNumber := serial1, EnrollmentStatus := status1 },
         { UDID := "ABC123", SerialNumber := serial2, EnrollmentStatus := status2 }]
        [] w).1.length ≤ 1 ∧
      (env.dbErr w.dbCalls = none →
        ∃ d, (importDevices env
          [{ UDID := "", SerialNumber := serial1, EnrollmentStatus := status1 },
           { UDID := "ABC123", SerialNumber := serial2, EnrollmentStatus := status2 }]
          [] w).1 = [d] ∧ d.UDID = "ABC123")) := by
  have key : ∀ (inv : List DeviceFromMDM) (rows : List Device) (w : World),
      (importDevices env inv rows w).1.take rows.length = rows ∧
      (∀ d ∈ (importDevices env inv rows w).1.drop rows.length, d.UDID ≠ "") ∧
      ((importDevices env inv rows w).1.drop rows.length).length
        ≤ inv.countP (fun r => r.UDID != "") := by
    intro inv rows w
    obtain ⟨created, h1, h2, h3, _⟩ := importDevices_created env inv rows w
    rw [h1]
    refine ⟨by simp, ?_, by simpa using h3⟩
    intro d hd
    simp only [List.drop_left] at hd
    obtain ⟨r, _, hne, hdr, _⟩ := h2 d hd
    rw [hdr, deviceFromMDM_UDID]
    exact hne
  refine ⟨(key inventory rows w).1, (key inventory rows w).2.1, (key inventory rows w).2.2,
    ?_, ?_⟩
  · rcases FetchDevicesFromMDM_devices env db w with h | ⟨inv, w1, h⟩
    · rw [h]; simp
    · rw [h]; exact ⟨(key inv db.devices w1).1, (key inv db.devices w1).2.1⟩
  · intro serial1 serial2 status1 status2
    constructor
    · have := (key [{ UDID := "", SerialNumber := serial1, EnrollmentStatus := status1 },
         { UDID := "ABC123", SerialNumber := serial2, EnrollmentStatus := status2 }] [] w).2.2
      simpa using this
    · intro herr
      refine ⟨deviceFromMDM ⟨"ABC123", serial2, status2⟩, ?_, by rw [deviceFromMDM_UDID]⟩
      simp [importDevices, FirstOrCreate, dbCall, herr]

/-- The inventory of C1 imported into an empty table under `sampleEnv`: one row. -/
theorem C1_witness :
    sampleEnv.dbErr World.init.dbCalls = none ∧
    ∃ d, (importDevices sampleEnv
      [{ UDID := "", SerialNumber := "S1", EnrollmentStatus := false },
       { UDID := "ABC123", SerialNumber := "S2", EnrollmentStatus := true }]
      [] World.init).1 = [d] ∧ d.UDID = "ABC123" :=
  ⟨rfl, ((C1_import_never_persists_empty_UDID sampleEnv [] [] World.init
      { devices := [], commands := [], certificates := [] }).2.2.2.2
      "S1" "S2" false true).2 rfl⟩

/-- C2: import is idempotent on row identity. For every device table in which
each UDID occurs at most once and every inventory list (lists that repeat a
UDID included), the table after the import still holds at most one row per
UDID, and so does the table after importing the same list a second time; the
per-record write is find-or-create keyed on UDID: it writes nothing when a row
with the key exists, and otherwise at most appends the one device. -/
theorem C2_import_keeps_UDID_unique (env : Env) (inventory : List DeviceFromMDM)
    (rows : List Device) (w : World) (h : (rows.map Device.UDID).Nodup) :
    ((importDevices env inventory rows w).1.map Device.UDID).Nodup ∧
    ((importDevices env inventory (importDevices env inventory rows w).1
        (importDevices env inventory rows w).2).1.map Device.UDID).Nodup ∧
    (∀ (udid : String) (device : Device),
      ((∃ d ∈ rows, d.UDID = udid) → (FirstOrCreate env rows w udid device).1 = rows) ∧
      ((FirstOrCreate env rows w udid device).1 = rows ∨
        (FirstOrCreate env rows w udid device).1 = rows ++ [device])) := by
  have key : ∀ (rows : List Device) (w : World), (rows.map Device.UDID).Nodup →
      ((importDevices env inventory rows w).1.map Device.UDID).Nodup := by
    intro rows w hnd
    obtain ⟨created, h1, _, _, h4⟩ := importDevices_created env inventory rows w
    rw [h1]
    exact h4 hnd
  refine ⟨key rows w h, key _ _ (key rows w h), ?_⟩
  intro udid device
  constructor
  · rintro ⟨d, hd, hdu⟩
    rcases FirstOrCreate_cases env rows w udid device with hc | ⟨_, _, hfresh⟩
    · exact hc
    · exact absurd hdu (hfresh d hd)
  · rcases FirstOrCreate_cases env rows w udid device with hc | ⟨hc, _⟩
    · exact Or.inl hc
    · exact Or.inr hc

/-- The record of `sampleRecord` imported twice in one list into a table that
already holds a row for another UDID. -/
theorem C2_witness :
    (([{ staleRow with UDID := "XYZ789" }] : List Device).map Device.UDID).Nodup ∧
    ((importDevices sampleEnv [sampleRecord, sampleRecord]
        [{ staleRow with UDID := "XYZ789" }] World.init).1.map Device.UDID).Nodup :=
  ⟨by decide, (C2_import_keeps_UDID_unique sampleEnv [sampleRecord, sampleRecord]
      [{ staleRow with UDID := "XYZ789" }] World.init (by decide)).1⟩

/-- C3, as stated, fails: the table already holds a row for `"ABC123"` with no
flag set, the inventory record for `"ABC123"` has `enrollment_status = true`,
and after the import the row stored for `"ABC123"` is the old row, with
`Active`, `AuthenticateRecieved`, `TokenUpdateRecieved` and `InitialTasksRun`
all false. -/
theorem C3_counterexample :
    sampleRecord.UDID ≠ "" ∧ sampleRecord.EnrollmentStatus = true ∧
    (importDevices sampleEnv [sampleRecord] [staleRow] World.init).1 = [staleRow] ∧
    (importDevices sampleEnv [sampleRecord] [staleRow] World.init).1.find?
        (fun row => row.UDID == sampleRecord.UDID) = some staleRow ∧
    staleRow.Active = false ∧ staleRow.AuthenticateRecieved = false ∧
    staleRow.TokenUpdateRecieved = false ∧ staleRow.InitialTasksRun = false := by
  decide

/-- C3, amended: enrollment-status flag bundling on the rows the import
creates. For every inventory record with a non-empty UDID and
`enrollment_status = true`: when the table already holds a row for that UDID,
the row stored for that UDID after the import is that same row, unchanged;
when the table holds no row for that UDID, no earlier record of the inventory
carries that UDID, and the find-or-create call for the record returns no
error, the row stored for that UDID after the import has `Active`,
`AuthenticateRecieved`, `TokenUpdateRecieved` and `InitialTasksRun` all true. -/
theorem C3_import_flags_on_created_row (env : Env) (pre post : List DeviceFromMDM)
    (r : DeviceFromMDM) (rows : List Device) (w : World)
    (hudid : r.UDID ≠ "") (hstatus : r.EnrollmentStatus = true) :
    (∀ d, rows.find? (fun row => row.UDID == r.UDID) = some d →
      (importDevices env (pre ++ r :: post) rows w).1.find?
        (fun row => row.UDID == r.UDID) = some d) ∧
    ((∀ d ∈ rows, d.UDID ≠ r.UDID) → (∀ x ∈ pre, x.UDID ≠ r.UDID) →
      env.dbErr (w.dbCalls + pre.countP (fun x => x.UDID != "")) = none →
      (importDevices env (pre ++ r :: post) rows w).1.find?
        (fun row => row.UDID == r.UDID) =
        some { UDID := r.UDID, SerialNumber := r.SerialNumber, Active := true,
               AuthenticateRecieved := true, TokenUpdateRecieved := true,
               InitialTasksRun := true, AwaitingConfiguration := false }) := by
  refine ⟨fun d hd => importDevices_find_existing env _ rows w r.UDID d hd, ?_⟩
  intro hrows hpre herr
  rw [importDevices_append]
  have hnone := importDevices_find_none env pre rows w r.UDID hrows hpre
  have hcalls := importDevices_dbCalls env pre rows w
  generalize (importDevices env pre rows w).1 = rows1 at hnone
  generalize (importDevices env pre rows w).2 = w1 at hcalls
  have hfind : rows1.find? (fun row => row.UDID == r.UDID) = none :=
    find_UDID_eq_none.mpr hnone
  have hstep : importDevices env (r :: post) rows1 w1 =
      (importDevices env post (rows1 ++ [deviceFromMDM r])
        { w1 with dbCalls := w1.dbCalls + 1 }) := by
    simp [importDevices, hudid, FirstOrCreate, dbCall, hcalls, herr, hfind]
  rw [hstep, ← deviceFromMDM_enrolled r hstatus]
  apply importDevices_find_existing
  rw [List.find?_append, hfind]
  simp [deviceFromMDM_UDID]

/-- The amended C3 at `sampleRecord`, imported into an empty table. -/
theorem C3_witness :
    sampleRecord.UDID ≠ "" ∧ sampleRecord.EnrollmentStatus = true ∧
    (importDevices sampleEnv ([] ++ sampleRecord :: []) [] World.init).1.find?
        (fun row => row.UDID == sampleRecord.UDID) =
      some { UDID := sampleRecord.UDID, SerialNumber := sampleRecord.SerialNumber,
             Active := true, AuthenticateRecieved := true, TokenUpdateRecieved := true,
             InitialTasksRun := true, AwaitingConfiguration := false } :=
  ⟨by decide, rfl,
    (C3_import_flags_on_created_row sampleEnv [] [] sampleRecord [] World.init
      (by decide) rfl).2 (by simp) (by simp) rfl⟩

/-! ## Enrollment profile verification -/

theorem ensureCertPayloads_eq (env : ProfileEnv) (device : Device)
    (profileLists : List ProfileList) (signingCert : Option x509.Certificate)
    (profile : ProfileList) (payloads : List PayloadContent) :
    ensureCertPayloads env device profileLists signingCert profile payloads =
      if payloads.any (fun payload => payload.PayloadType == "com.apple.mdm") then
        some (ensureCertFound env device profileLists signingCert profile)
      else none := by
  induction payloads with
  | nil => simp [ensureCertPayloads]
  | cons payload rest ih =>
    by_cases h : payload.PayloadType = "com.apple.mdm"
    · simp [ensureCertPayloads, h]
    · simp [ensureCertPayloads, h, ih]

/-- The loops stop at the first profile, in list order, that has a
`com.apple.mdm` payload, and fall through to `return nil` when there is none. -/
theorem ensureCertProfiles_eq (env : ProfileEnv) (device : Device)
    (profileLists : List ProfileList) (signingCert : Option x509.Certificate)
    (profiles : List ProfileList) :
    ensureCertProfiles env device profileLists signingCert profiles =
      match profiles.find? hasMDMPayload with
      | some profile => ensureCertFound env device profileLists signingCert profile
      | none => ([], none) := by
  induction profiles with
  | nil => simp [ensureCertProfiles]
  | cons profile rest ih =>
    by_cases h : hasMDMPayload profile = true
    · have h2 := h
      unfold hasMDMPayload at h2
      simp [ensureCertProfiles, ensureCertPayloads_eq, h, h2]
    · have h2 := h
      unfold hasMDMPayload at h2
      simp [ensureCertProfiles, ensureCertPayloads_eq, h, h2, ih]

/-- The events of `reinstallEnrollmentProfile` start with its entry marker and
hold no validation call. -/
theorem reinstallEnrollmentProfile_events (env : ProfileEnv) (device : Device) :
    (Event.reinstallEnrollmentProfile device ∈ (reinstallEnrollmentProfile env device).1) ∧
    (reinstallEnrollmentProfile env device).1.filter Event.isValidation = [] := by
  simp only [reinstallEnrollmentProfile]
  cases h1 : env.ReadFile env.EnrollmentProfile with
  | error e => simp [Event.isValidation]
  | ok data =>
    cases h2 : env.plistUnmarshal data with
    | error e => simp [h2, Event.isValidation]
    | ok profile =>
      cases h3 : env.SignedEnrollmentProfile with
      | true =>
        cases h4 : env.SendCommand
            { UDID := device.UDID, RequestType := "InstallProfile",
              Payload := env.EncodeToString data } <;>
          simp [h2, h3, h4, Event.isValidation, CommandPayload.zero]
      | false =>
        cases h4 : env.PushProfiles [device]
            [{ profile with MobileconfigData := data }] <;>
          simp [h2, h3, h4, Event.isValidation]

/-- C4, as stated, fails: with profile signing enabled, a device that reports
an empty profile list, or only a Wi-Fi profile, gets no reinstall:
`ensureCertOnEnrollmentProfile` returns nil and makes no call at all. -/
theorem C4_counterexample :
    sampleProfileEnv.Sign = true ∧
    hasMDMPayload wifiProfile = false ∧
    ensureCertOnEnrollmentProfile sampleProfileEnv staleRow [] none = ([], none) ∧
    ensureCertOnEnrollmentProfile sampleProfileEnv staleRow [wifiProfile] none = ([], none) ∧
    Event.reinstallEnrollmentProfile staleRow ∉
      (ensureCertOnEnrollmentProfile sampleProfileEnv staleRow [] none).1 ∧
    Event.reinstallEnrollmentProfile staleRow ∉
      (ensureCertOnEnrollmentProfile sampleProfileEnv staleRow [wifiProfile] none).1 := by
  decide

/-- C4, amended: when `ensureCertOnEnrollmentProfile` runs with profile signing
enabled on a device whose reported profile lists contain no payload of type
`com.apple.mdm` (an empty profile list included), it returns nil without
validating any profile and without requesting a reinstall: it makes no call. -/
theorem C4_no_mdm_payload_no_reinstall (env : ProfileEnv) (device : Device)
    (profileLists : List ProfileList) (signingCert : Option x509.Certificate)
    (hsign : env.Sign = true)
    (hnone : ∀ profile ∈ profileLists, ∀ payload ∈ profile.PayloadContent,
      payload.PayloadType ≠ "com.apple.mdm") :
    ensureCertOnEnrollmentProfile env device profileLists signingCert = ([], none) := by
  have hfind : profileLists.find? hasMDMPayload = none := by
    rw [List.find?_eq_none]
    intro profile hp
    simp only [hasMDMPayload, List.any_eq_true, beq_iff_eq, not_exists, not_and]
    intro payload hpay htype
    exact hnone profile hp payload hpay htype
  simp [ensureCertOnEnrollmentProfile, hsign, ensureCertProfiles_eq, hfind]

/-- The amended C4 on a device that reports only a Wi-Fi profile. -/
theorem C4_witness :
    sampleProfileEnv.Sign = true ∧
    (∀ profile ∈ [wifiProfile], ∀ payload ∈ profile.PayloadContent,
      payload.PayloadType ≠ "com.apple.mdm") ∧
    ensureCertOnEnrollmentProfile sampleProfileEnv staleRow [wifiProfile] none = ([], none) :=
  ⟨rfl, by decide,
    C4_no_mdm_payload_no_reinstall sampleProfileEnv staleRow [wifiProfile] none rfl
      (by decide)⟩

/-- C6: with profile signing enabled and a reported profile list that contains
at least one payload of type `com.apple.mdm`, `ensureCertOnEnrollmentProfile`
validates exactly one profile: the first profile, in list order, that contains
such a payload, with `Installed = true` and the UDID of the device. It then
requests a reinstall if and only if that validation reports
`needsReinstall = true` without error. On `needsReinstall = false` it returns
nil and issues no install command; on a validation error it returns the error
wrapped with `validateProfileInProfileList` and issues no install command. -/
theorem C6_validates_first_mdm_profile (env : ProfileEnv) (device : Device)
    (profileLists : List ProfileList) (signingCert : Option x509.Certificate)
    (profile : ProfileList)
    (hsign : env.Sign = true)
    (hfirst : profileLists.find? hasMDMPayload = some profile) :
    (ensureCertOnEnrollmentProfile env device profileLists signingCert).1.filter
        Event.isValidation =
      [Event.validateProfileInProfileList
        { PayloadUUID := profile.PayloadUUID, PayloadIdentifier := profile.PayloadIdentifier,
          HashedPayloadUUID := profile.PayloadUUID, DeviceUDID := device.UDID,
          Installed := true }
        profileLists signingCert] ∧
    (Event.reinstallEnrollmentProfile device ∈
        (ensureCertOnEnrollmentProfile env device profileLists signingCert).1 ↔
      (env.validateProfileInProfileList
        { PayloadUUID := profile.PayloadUUID, PayloadIdentifier := profile.PayloadIdentifier,
          HashedPayloadUUID := profile.PayloadUUID, DeviceUDID := device.UDID,
          Installed := true }
        profileLists signingCert).2.1 = true ∧
      (env.validateProfileInProfileList
        { PayloadUUID := profile.PayloadUUID, PayloadIdentifier := profile.PayloadIdentifier,
          HashedPayloadUUID := profile.PayloadUUID, DeviceUDID := device.UDID,
          Installed := true }
        profileLists signingCert).2.2 = none) ∧
    ((env.validateProfileInProfileList
        { PayloadUUID := profile.PayloadUUID, PayloadIdentifier := profile.PayloadIdentifier,
          HashedPayloadUUID := profile.PayloadUUID, DeviceUDID := device.UDID,
          Installed := true }
        profileLists signingCert).2 = (false, none) →
      (ensureCertOnEnrollmentProfile env device profileLists signingCert).2 = none ∧
      ∀ e ∈ (ensureCertOnEnrollmentProfile env device profileLists signingCert).1,
        e.isInstallCommand = false) ∧
    (∀ err,
      (env.validateProfileInProfileList
        { PayloadUUID := profile.PayloadUUID, PayloadIdentifier := profile.PayloadIdentifier,
          HashedPayloadUUID := profile.PayloadUUID, DeviceUDID := device.UDID,
          Installed := true }
        profileLists signingCert).2.2 = some err →
      (ensureCertOnEnrollmentProfile env device profileLists signingCert).2 =
        some (errors.Wrap err "validateProfileInProfileList") ∧
      ∀ e ∈ (ensureCertOnEnrollmentProfile env device profileLists signingCert).1,
        e.isInstallCommand = false) := by
  have hrun : ensureCertOnEnrollmentProfile env device profileLists signingCert =
      ensureCertFound env device profileLists signingCert profile := by
    simp [ensureCertOnEnrollmentProfile, hsign, ensureCertProfiles_eq, hfirst]
  rw [hrun]
  obtain ⟨hmem, hfilter⟩ := reinstallEnrollmentProfile_events env device
  simp only [ensureCertFound]
  rcases hv : env.validateProfileInProfileList
        { PayloadUUID := profile.PayloadUUID, PayloadIdentifier := profile.PayloadIdentifier,
          HashedPayloadUUID := profile.PayloadUUID, DeviceUDID := device.UDID,
          Installed := true }
        profileLists signingCert with ⟨installed, needsReinstall, verr⟩
  cases verr with
  | some err => simp [Event.isValidation, Event.isInstallCommand]
  | none =>
    cases needsReinstall with
    | false => simp [Event.isValidation, Event.isInstallCommand]
    | true =>
      rcases hr : reinstallEnrollmentProfile env device with ⟨more, rerr⟩
      rw [hr] at hmem hfilter
      simp only at hmem hfilter
      cases rerr <;>
        simp [Event.isValidation, List.filter_cons, hfilter, hmem]

/-- C6 on a device that reports a Wi-Fi profile and then an enrollment profile
signed under an older identity. -/
theorem C6_witness :
    sampleProfileEnv.Sign = true ∧
    [wifiProfile, oldEnrollmentProfile].find? hasMDMPayload = some oldEnrollmentProfile ∧
    (ensureCertOnEnrollmentProfile sampleProfileEnv staleRow
        [wifiProfile, oldEnrollmentProfile] none).1.filter Event.isValidation =
      [Event.validateProfileInProfileList
        { PayloadUUID := oldEnrollmentProfile.PayloadUUID,
          PayloadIdentifier := oldEnrollmentProfile.PayloadIdentifier,
          HashedPayloadUUID := oldEnrollmentProfile.PayloadUUID, DeviceUDID := staleRow.UDID,
          Installed := true }
        [wifiProfile, oldEnrollmentProfile] none] :=
  ⟨rfl, by decide,
    (C6_validates_first_mdm_profile sampleProfileEnv staleRow
      [wifiProfile, oldEnrollmentProfile] none oldEnrollmentProfile rfl (by decide)).1⟩

/-! ## Push dispatcher -/

theorem NewRequest_ok (env : Env) (method url : String) (body : Option String) (u : URL)
    (h : env.urlParse url = .ok u) :
    http.NewRequest env method url body =
      .ok { Method := method, URL := url, Body := body, BasicAuth := none } := by
  simp [http.NewRequest, h]

/-- When the server URL parses and every wake URL can be turned into a request,
the loop of `pushNotNow` hands exactly one wake request to the client for each
scanned row, in order, reads the clock once per row, and returns. -/
theorem pushNotNowLoop_sent (env : Env) (base : URL)
    (hparse : env.urlParse env.ServerURL = .ok base)
    (hbuild : ∀ udid retry, ∃ u, env.urlParse (wakeRequest env base udid retry).URL = .ok u)
    (commands : List Command) :
    ∀ w : World,
      (pushNotNowLoop env commands w).2 = .ret () ∧
      (pushNotNowLoop env commands w).1.sent =
        w.sent ++ wakeRequestsFrom env base (commands.map (fun c => c.DeviceUDID)) w.reads ∧
      (pushNotNowLoop env commands w).1.reads = w.reads + commands.length ∧
      (pushNotNowLoop env commands w).1.dbCalls = w.dbCalls := by
  induction commands with
  | nil => intro w; simp [pushNotNowLoop, wakeRequestsFrom]
  | cons c rest ih =>
    intro w
    obtain ⟨u, hu⟩ := hbuild c.DeviceUDID (wrapInt64 (env.now w.reads + 3600))
    have hreq := NewRequest_ok env "GET" _ none u hu
    have hcons : pushNotNowLoop env (c :: rest) w =
        match (env.clientDo w.sent.length
          (wakeRequest env base c.DeviceUDID (wrapInt64 (env.now w.reads + 3600)))).err with
        | some err => pushNotNowLoop env rest (logError
            { w with
              reads := w.reads + 1
              sent := w.sent ++
                [wakeRequest env base c.DeviceUDID (wrapInt64 (env.now w.reads + 3600))] } err)
        | none => pushNotNowLoop env rest
            { w with
              reads := w.reads + 1
              sent := w.sent ++
                [wakeRequest env base c.DeviceUDID (wrapInt64 (env.now w.reads + 3600))] } := by
      simp only [wakeRequest] at hreq ⊢
      simp only [pushNotNowLoop, hparse, Except.toOption, timeNowUnix, hreq, clientDo,
        Request.SetBasicAuth]
    rw [hcons]
    cases (env.clientDo w.sent.length
        (wakeRequest env base c.DeviceUDID (wrapInt64 (env.now w.reads + 3600)))).err with
    | some err =>
      obtain ⟨h1, h2, h3, h4⟩ := ih (logError
        { w with
          reads := w.reads + 1
          sent := w.sent ++
            [wakeRequest env base c.DeviceUDID (wrapInt64 (env.now w.reads + 3600))] } err)
      dsimp only
      refine ⟨h1, ?_, ?_, ?_⟩
      · rw [h2]; simp [logError, wakeRequestsFrom]
      · rw [h3]; simp only [logError, List.length_cons]; omega
      · rw [h4]; rfl
    | none =>
      obtain ⟨h1, h2, h3, h4⟩ := ih
        { w with
          reads := w.reads + 1
          sent := w.sent ++
            [wakeRequest env base c.DeviceUDID (wrapInt64 (env.now w.reads + 3600))] }
      dsimp only
      refine ⟨h1, ?_, ?_, h4⟩
      · rw [h2]; simp [wakeRequestsFrom]
      · rw [h3]; simp only [List.length_cons]; omega

theorem FormatInt_ten (i : Int) : strconv.FormatInt i 10 = toString i := by
  unfold strconv.FormatInt
  cases i with
  | ofNat m =>
    have h : ¬ ((Int.ofNat m) < 0) := by simp
    rw [if_neg h]
    simp [toString, Nat.repr, List.asString]
  | negSucc m => simp [toString, Nat.repr, List.asString, Int.negSucc_lt_zero]

theorem wrapInt64_of_range (x : Int) (h : -2 ^ 63 ≤ x ∧ x < 2 ^ 63) : wrapInt64 x = x := by
  unfold wrapInt64
  norm_num at h ⊢
  omega

/-- The function `PushDevice` when the server URL parses and the wake URL can be
turned into a request: one clock read, one round trip, and an error exactly
when the round trip or closing the body fails. -/
theorem PushDevice_eq (env : Env) (base u : URL) (udid : String) (w : World)
    (hparse : env.urlParse env.ServerURL = .ok base)
    (hbuild : env.urlParse
      (wakeRequest env base udid (wrapInt64 (env.now w.reads + 3600))).URL = .ok u) :
    PushDevice env udid w =
      ({ w with
         reads := w.reads + 1
         sent := w.sent ++
           [wakeRequest env base udid (wrapInt64 (env.now w.reads + 3600))] },
       match env.clientDo w.sent.length
           (wakeRequest env base udid (wrapInt64 (env.now w.reads + 3600))) with
       | .failure err => some (errors.Wrap err "PushDevice")
       | .redirectFailure _ err => some (errors.Wrap err "PushDevice")
       | .response resp => resp.Body.closeErr.map (fun err => errors.Wrap err "PushDevice")) := by
  have hreq := NewRequest_ok env "GET" _ none u hbuild
  simp only [wakeRequest] at hreq ⊢
  simp only [PushDevice, hparse, timeNowUnix, hreq, clientDo, Request.SetBasicAuth]
  cases env.clientDo w.sent.length _ with
  | failure err => rfl
  | redirectFailure resp err => rfl
  | response resp =>
    cases h : resp.Body.closeErr <;> simp [h]

/-- The function `pushConcurrent` when the server URL parses and the wake URL can
be turned into a request: one clock read, one round trip, and a panic exactly
when the round trip returns no response. -/
theorem pushConcurrent_eq (env : Env) (base u : URL) (device : Device) (w : World)
    (hparse : env.urlParse env.ServerURL = .ok base)
    (hbuild : env.urlParse
      (wakeRequest env base device.UDID (wrapInt64 (env.now w.reads + 3600))).URL = .ok u) :
    (pushConcurrent env device w).1.sent =
      w.sent ++ [wakeRequest env base device.UDID (wrapInt64 (env.now w.reads + 3600))] ∧
    (pushConcurrent env device w).2 =
      match env.clientDo w.sent.length
          (wakeRequest env base device.UDID (wrapInt64 (env.now w.reads + 3600))) with
      | .failure _ => .panic nilDeref
      | .redirectFailure _ _ => .ret ()
      | .response _ => .ret () := by
  have hreq := NewRequest_ok env "GET" _ none u hbuild
  simp only [wakeRequest] at hreq ⊢
  simp only [pushConcurrent, hparse, Except.toOption, timeNowUnix, hreq, clientDo,
    Request.SetBasicAuth]
  cases env.clientDo w.sent.length _ with
  | failure err => simp [DoResult.err, DoResult.resp, logError]
  | redirectFailure resp err => simp [DoResult.err, DoResult.resp, logError]
  | response resp => simp [DoResult.err, DoResult.resp]

theorem notNowUDIDs_eq (commands : List Command) :
    notNowUDIDs commands =
      ((commands.filter (fun c => c.Status == "NotNow")).map (fun c => c.DeviceUDID)).dedup := by
  simp [notNowUDIDs, selectDistinctNotNow, List.map_map, Function.comp_def]

theorem wakeRequestsFrom_forall₂ (env : Env) (base : URL) (udids : List String) :
    ∀ k, List.Forall₂
      (fun udid req => ∃ t, req = wakeRequest env base udid (wrapInt64 (t + 3600)))
      udids (wakeRequestsFrom env base udids k) := by
  induction udids with
  | nil => intro k; exact List.Forall₂.nil
  | cons udid rest ih =>
    intro k
    exact List.Forall₂.cons ⟨env.now k, rfl⟩ (ih (k + 1))

/-- The function `pushNotNow` when its query succeeds, the server URL parses and
every wake URL can be turned into a request. -/
theorem pushNotNow_eq (env : Env) (base : URL) (db : DB) (w : World)
    (hquery : env.dbErr w.dbCalls = none)
    (hparse : env.urlParse env.ServerURL = .ok base)
    (hbuild : ∀ udid retry, ∃ u, env.urlParse (wakeRequest env base udid retry).URL = .ok u) :
    (pushNotNow env db w).2 = .ret none ∧
    (pushNotNow env db w).1.sent =
      w.sent ++ wakeRequestsFrom env base (notNowUDIDs db.commands) w.reads ∧
    (pushNotNow env db w).1.reads = w.reads + (notNowUDIDs db.commands).length ∧
    (pushNotNow env db w).1.dbCalls = w.dbCalls + 1 := by
  obtain ⟨h1, h2, h3, h4⟩ := pushNotNowLoop_sent env base hparse hbuild
    (selectDistinctNotNow db.commands) { w with dbCalls := w.dbCalls + 1 }
  simp only [pushNotNow, dbCall, hquery]
  rcases hloop : pushNotNowLoop env (selectDistinctNotNow db.commands)
      { w with dbCalls := w.dbCalls + 1 } with ⟨w1, out⟩
  rw [hloop] at h1 h2 h3 h4
  simp only at h1 h2 h3 h4
  subst h1
  simp only [notNowUDIDs, List.length_map]
  exact ⟨trivial, h2, h3, h4⟩

/-- In the sample environments whose codecs are those of `sampleEnv`, every wake
URL can be turned into a request. -/
theorem sampleEnv_builds (base : URL) (udid : String) (retry : Int) :
    ∃ u, sampleEnv.urlParse (wakeRequest sampleEnv base udid retry).URL = .ok u := by
  have hne : (wakeRequest sampleEnv base udid retry).URL ≠ ":" := by
    intro h
    have hlen := congrArg String.length h
    simp only [wakeRequest, sampleEnv, String.length_append] at hlen
    have h1 : "://".length = 3 := by decide
    have h2 : ":".length = 1 := by decide
    omega
  simp only [sampleEnv] at hne ⊢
  rw [if_neg hne]
  split <;> exact ⟨_, rfl⟩

/-- C5: where the code breaks the claim. With an upstream server that cannot be
reached (`client.Do` returns a nil response and an error), `pushNotNow` logs
the error and returns, and `PushDevice` returns the wrapped error, but
`pushConcurrent` and `FetchDevicesFromMDM` log the error and then dereference
the nil response: both panic. -/
theorem C5_transport_failure_panics :
    (∀ k req, offlineEnv.clientDo k req = .failure "dial tcp: connection refused") ∧
    (pushNotNow offlineEnv sampleDB World.init).2 = .ret none ∧
    (pushNotNow offlineEnv sampleDB World.init).1.logs =
      [LogEntry.error "dial tcp: connection refused",
       LogEntry.error "dial tcp: connection refused"] ∧
    (PushDevice offlineEnv "ABC123" World.init).2 =
      some "PushDevice: dial tcp: connection refused" ∧
    (pushConcurrent offlineEnv staleRow World.init).2 = .panic nilDeref ∧
    (pushConcurrent offlineEnv staleRow World.init).1.logs =
      [LogEntry.error "dial tcp: connection refused"] ∧
    (FetchDevicesFromMDM offlineEnv sampleDB World.init).2.2 = .panic nilDeref ∧
    (FetchDevicesFromMDM offlineEnv sampleDB World.init).2.1.logs =
      [LogEntry.error "dial tcp: connection refused"] := by
  refine ⟨fun _ _ => rfl, ?_, ?_, ?_, ?_, ?_, ?_, ?_⟩ <;> decide

/-- C7, as stated, fails: the distinct-UDID query succeeds and two devices have
`NotNow` commands, but the configured server URL does not parse; `pushNotNow`
drops the error of `url.Parse`, dereferences the nil endpoint in the first
iteration and panics, having attempted no wake request. -/
theorem C7_counterexample :
    badURLEnv.dbErr World.init.dbCalls = none ∧
    notNowUDIDs sampleDB.commands = ["Y", "X"] ∧
    (pushNotNow badURLEnv sampleDB World.init).2 = .panic nilDeref ∧
    (pushNotNow badURLEnv sampleDB World.init).1.sent = [] := by
  decide

/-- C7, amended: `pushNotNow` wakes each distinct busy device exactly once when
the server URL parses and every wake URL can be turned into a request. For
every command table, when the distinct-UDID query succeeds, the sweep returns
nil and the requests it hands to the client are, in order, one wake request
for each element of the list of scanned UDIDs; that list has no repetition and
holds exactly the UDIDs that have at least one command with status `NotNow`. -/
theorem C7_pushNotNow_one_wake_per_device (env : Env) (base : URL) (db : DB) (w : World)
    (hquery : env.dbErr w.dbCalls = none)
    (hparse : env.urlParse env.ServerURL = .ok base)
    (hbuild : ∀ udid retry, ∃ u, env.urlParse (wakeRequest env base udid retry).URL = .ok u) :
    (pushNotNow env db w).2 = .ret none ∧
    (pushNotNow env db w).1.sent =
      w.sent ++ wakeRequestsFrom env base (notNowUDIDs db.commands) w.reads ∧
    List.Forall₂
      (fun udid req => ∃ t, req = wakeRequest env base udid (wrapInt64 (t + 3600)))
      (notNowUDIDs db.commands) ((pushNotNow env db w).1.sent.drop w.sent.length) ∧
    ((pushNotNow env db w).1.sent.drop w.sent.length).length =
      (notNowUDIDs db.commands).length ∧
    (notNowUDIDs db.commands).Nodup ∧
    (∀ udid, udid ∈ notNowUDIDs db.commands ↔
      ∃ c ∈ db.commands, c.DeviceUDID = udid ∧ c.Status = "NotNow") := by
  obtain ⟨h1, h2, _, _⟩ := pushNotNow_eq env base db w hquery hparse hbuild
  have hall := wakeRequestsFrom_forall₂ env base (notNowUDIDs db.commands) w.reads
  refine ⟨h1, h2, ?_, ?_, ?_, ?_⟩
  · rw [h2, List.drop_left]
    exact hall
  · rw [h2, List.drop_left]
    exact hall.length_eq.symm
  · rw [notNowUDIDs_eq]
    exact List.nodup_dedup _
  · intro udid
    rw [notNowUDIDs_eq, List.mem_dedup, List.mem_map]
    constructor
    · rintro ⟨c, hc, hcu⟩
      rw [List.mem_filter] at hc
      exact ⟨c, hc.1, hcu, by simpa using hc.2⟩
    · rintro ⟨c, hc, hcu, hs⟩
      exact ⟨c, List.mem_filter.mpr ⟨hc, by simpa using hs⟩, hcu⟩

/-- The amended C7 on three `NotNow` commands for `"X"` and one for `"Y"`:
exactly two wake requests. -/
theorem C7_witness :
    sampleEnv.dbErr World.init.dbCalls = none ∧
    sampleEnv.urlParse sampleEnv.ServerURL = .ok sampleBase ∧
    (notNowUDIDs sampleDB.commands).length = 2 ∧
    ((pushNotNow sampleEnv sampleDB World.init).1.sent.drop World.init.sent.length).length =
      (notNowUDIDs sampleDB.commands).length :=
  ⟨rfl, rfl, by decide,
    (C7_pushNotNow_one_wake_per_device sampleEnv sampleBase sampleDB World.init rfl rfl
      (sampleEnv_builds sampleBase)).2.2.2.1⟩

/-- C8: every wake request recomputes its retry window from the clock. For
every UDID and every clock reading `t` at the moment the request is built, the
request that `PushDevice`, `pushConcurrent` and `pushNotNow` hand to the client
is the same: a GET to the URL whose path is the path of the base URL joined
with `push` and the UDID, and whose `expiration` query value is the decimal
rendering of the `int64` sum `t + 3600`, which is the integer `t + 3600`
whenever that fits in an `int64`. Consequently two `pushNotNow` sweeps run one
after the other against the same device, at clock readings `t1` and `t2`, send
expiration values that differ by exactly `t2 - t1`: in `int64` arithmetic
always, and as integers whenever neither sum overflows. -/
theorem C8_wake_request_expiration (env : Env) (base : URL) (udid : String) (device : Device)
    (w : World)
    (hparse : env.urlParse env.ServerURL = .ok base)
    (hbuild : ∀ udid retry, ∃ u, env.urlParse (wakeRequest env base udid retry).URL = .ok u) :
    (PushDevice env udid w).1.sent =
      w.sent ++ [wakeRequest env base udid (wrapInt64 (env.now w.reads + 3600))] ∧
    (pushConcurrent env device w).1.sent =
      w.sent ++ [wakeRequest env base device.UDID (wrapInt64 (env.now w.reads + 3600))] ∧
    (∀ db : DB, notNowUDIDs db.commands = [udid] → env.dbErr w.dbCalls = none →
      (pushNotNow env db w).1.sent =
        w.sent ++ [wakeRequest env base udid (wrapInt64 (env.now w.reads + 3600))]) ∧
    (∀ retry : Int,
      (wakeRequest env base udid retry).Method = "GET" ∧
      (wakeRequest env base udid retry).URL =
        env.urlString
          { Scheme := base.Scheme
            Host := base.Host
            Path := env.pathJoin [base.Path, "push", udid]
            RawQuery := env.encodeQuery
              (Values.Set (env.parseQuery base.RawQuery) "expiration" (toString retry)) } ∧
      Values.Get (Values.Set (env.parseQuery base.RawQuery) "expiration" (toString retry))
        "expiration" = toString retry) ∧
    (∀ t : Int, -2 ^ 63 ≤ t → t + 3600 < 2 ^ 63 → wrapInt64 (t + 3600) = t + 3600) ∧
    (∀ db : DB, notNowUDIDs db.commands = [udid] →
      env.dbErr w.dbCalls = none → env.dbErr (w.dbCalls + 1) = none →
      (pushNotNow env db (pushNotNow env db w).1).1.sent =
        w.sent ++ [wakeRequest env base udid (wrapInt64 (env.now w.reads + 3600)),
                   wakeRequest env base udid (wrapInt64 (env.now (w.reads + 1) + 3600))] ∧
      wrapInt64 (wrapInt64 (env.now (w.reads + 1) + 3600) -
          wrapInt64 (env.now w.reads + 3600)) =
        wrapInt64 (env.now (w.reads + 1) - env.now w.reads) ∧
      (-2 ^ 63 ≤ env.now w.reads → env.now w.reads + 3600 < 2 ^ 63 →
        -2 ^ 63 ≤ env.now (w.reads + 1) → env.now (w.reads + 1) + 3600 < 2 ^ 63 →
        wrapInt64 (env.now (w.reads + 1) + 3600) - wrapInt64 (env.now w.reads + 3600) =
          env.now (w.reads + 1) - env.now w.reads)) := by
  refine ⟨?_, ?_, ?_, ?_, ?_, ?_⟩
  · obtain ⟨u, hu⟩ := hbuild udid (wrapInt64 (env.now w.reads + 3600))
    rw [PushDevice_eq env base u udid w hparse hu]
  · obtain ⟨u, hu⟩ := hbuild device.UDID (wrapInt64 (env.now w.reads + 3600))
    rw [(pushConcurrent_eq env base u device w hparse hu).1]
  · intro db hdb hquery
    rw [(pushNotNow_eq env base db w hquery hparse hbuild).2.1, hdb]
    simp [wakeRequestsFrom]
  · intro retry
    refine ⟨rfl, ?_, ?_⟩
    · simp [wakeRequest, FormatInt_ten]
    · simp [Values.Get, Values.Set]
  · intro t h1 h2
    exact wrapInt64_of_range _ ⟨by omega, h2⟩
  · intro db hdb hquery1 hquery2
    obtain ⟨_, hs1, hr1, hd1⟩ := pushNotNow_eq env base db w hquery1 hparse hbuild
    have hquery2' : env.dbErr (pushNotNow env db w).1.dbCalls = none := by
      rw [hd1]; exact hquery2
    obtain ⟨_, hs2, _, _⟩ :=
      pushNotNow_eq env base db (pushNotNow env db w).1 hquery2' hparse hbuild
    refine ⟨?_, ?_, ?_⟩
    · rw [hs2, hs1, hr1, hdb]
      simp [wakeRequestsFrom]
    · unfold wrapInt64
      norm_num
      omega
    · intro h1 h2 h3 h4
      rw [wrapInt64_of_range _ ⟨by omega, h2⟩, wrapInt64_of_range _ ⟨by omega, h4⟩]
      omega

/-- C8 at `sampleEnv`, whose first clock reading is 1700000000: the wake
request of `PushDevice` carries the expiration 1700003600. -/
theorem C8_witness :
    sampleEnv.urlParse sampleEnv.ServerURL = .ok sampleBase ∧
    (PushDevice sampleEnv "ABC123" World.init).1.sent =
      World.init.sent ++
        [wakeRequest sampleEnv sampleBase "ABC123"
          (wrapInt64 (sampleEnv.now World.init.reads + 3600))] ∧
    (wakeRequest sampleEnv sampleBase "ABC123"
        (wrapInt64 (sampleEnv.now World.init.reads + 3600))).URL =
      "https://mdm.example.com/push/ABC123?expiration=1700003600" :=
  ⟨rfl,
    (C8_wake_request_expiration sampleEnv sampleBase "ABC123" staleRow World.init rfl
      (sampleEnv_builds sampleBase)).1,
    by decide⟩

/-! ## Scheduled checkin -/

theorem spawn_foldl_dbCalls (devices : List Device) :
    ∀ w : World,
      (devices.foldl
        (fun w device =>
          let w := logDebug w ("Pushing to " ++ device.UDID)
          { w with spawned := w.spawned ++ [device] }) w).dbCalls = w.dbCalls := by
  induction devices with
  | nil => intro w; rfl
  | cons d rest ih =>
    intro w
    rw [List.foldl_cons, ih]
    rfl

/-- The function `pushAll` returns the error of its device scan, and makes one
persistence call. -/
theorem pushAll_result (env : Env) (db : DB) (w : World) :
    (pushAll env db w).2 = env.dbErr w.dbCalls ∧
    (pushAll env db w).1.dbCalls = w.dbCalls + 1 := by
  unfold pushAll dbCall
  cases h : env.dbErr w.dbCalls with
  | some err => simp
  | none =>
    simp only
    refine ⟨by trivial, ?_⟩
    rw [spawn_foldl_dbCalls]
    rfl

/-- C9, as stated, fails: when the device scan of `pushAll` returns an error,
`processScheduledCheckin` returns that error before the purge, and the
certificate row with a null `DeviceUDID` is still in the table after the pass. -/
theorem C9_counterexample :
    (processScheduledCheckin dbDownEnv sampleDB World.init).2.2 =
      some "sql: database is closed" ∧
    (processScheduledCheckin dbDownEnv sampleDB World.init).1.certificates =
      sampleDB.certificates ∧
    ({ DeviceUDID := none, Fingerprint := "aa:01" } : Certificate) ∈
      (processScheduledCheckin dbDownEnv sampleDB World.init).1.certificates := by
  decide

/-- C9, amended: orphan-certificate purge by `processScheduledCheckin`. For
every persistent state, when the device scan of `pushAll` and the delete both
return no error, after one scheduled-checkin pass the Certificate table is
exactly the prior table with the rows whose `DeviceUDID` is null removed (every
row with a null `DeviceUDID` is deleted, every row with a non-null `DeviceUDID`
survives unchanged) and the pass returns nil; when the device scan or the
delete returns an error, the pass returns the error and the Certificate table is
the prior table. In every case no Device row is added, removed or changed. -/
theorem C9_scheduled_checkin_purges_orphans (env : Env) (db : DB) (w : World) :
    (processScheduledCheckin env db w).1.devices = db.devices ∧
    (env.dbErr w.dbCalls = none → env.dbErr (w.dbCalls + 1) = none →
      (processScheduledCheckin env db w).2.2 = none ∧
      (processScheduledCheckin env db w).1.certificates =
        db.certificates.filter (fun c => c.DeviceUDID.isSome) ∧
      (∀ c ∈ (processScheduledCheckin env db w).1.certificates, c.DeviceUDID ≠ none) ∧
      (∀ c ∈ db.certificates, c.DeviceUDID ≠ none →
        c ∈ (processScheduledCheckin env db w).1.certificates)) ∧
    (∀ err, env.dbErr w.dbCalls = some err →
      (processScheduledCheckin env db w).2.2 = some err ∧
      (processScheduledCheckin env db w).1 = db) ∧
    (∀ err, env.dbErr w.dbCalls = none → env.dbErr (w.dbCalls + 1) = some err →
      (processScheduledCheckin env db w).2.2 =
        some (errors.Wrap err "processScheduledCheckin::CleanupNullCertificates") ∧
      (processScheduledCheckin env db w).1 = db) := by
  have hlog : (if env.DebugMode then logDebug w "Processing scheduledCheckin in debug mode"
      else w).dbCalls = w.dbCalls := by
    cases env.DebugMode <;> rfl
  obtain ⟨hres, hcalls⟩ := pushAll_result env db
    (if env.DebugMode then logDebug w "Processing scheduledCheckin in debug mode" else w)
  rw [hlog] at hres hcalls
  simp only [processScheduledCheckin]
  rcases hpush : pushAll env db
      (if env.DebugMode then logDebug w "Processing scheduledCheckin in debug mode" else w)
    with ⟨w1, perr⟩
  rw [hpush] at hres hcalls
  simp only at hres hcalls
  subst hres
  cases hscan : env.dbErr w.dbCalls with
  | some err => simp
  | none =>
    simp only [dbCall, hcalls]
    cases hdel : env.dbErr (w.dbCalls + 1) with
    | some err => simp
    | none =>
      simp only [deleteNullCertificates, true_and, forall_const, reduceCtorEq, false_implies,
        implies_true, and_true]
      refine ⟨?_, ?_⟩
      · intro c hc
        have := (List.mem_filter.mp hc).2
        intro hnone
        simp [hnone] at this
      · intro c hc hne
        refine List.mem_filter.mpr ⟨hc, ?_⟩
        cases h : c.DeviceUDID with
        | none => exact absurd h hne
        | some u => rfl

/-- The amended C9 at `sampleDB`: the orphaned certificate is purged, the
certificate of `"ABC123"` survives. -/
theorem C9_witness :
    sampleEnv.dbErr World.init.dbCalls = none ∧
    sampleEnv.dbErr (World.init.dbCalls + 1) = none ∧
    (processScheduledCheckin sampleEnv sampleDB World.init).1.certificates =
      sampleDB.certificates.filter (fun c => c.DeviceUDID.isSome) ∧
    sampleDB.certificates.filter (fun c => c.DeviceUDID.isSome) =
      [{ DeviceUDID := some "ABC123", Fingerprint := "bb:02" }] :=
  ⟨rfl, rfl,
    ((C9_scheduled_checkin_purges_orphans sampleEnv sampleDB World.init).2.1 rfl rfl).2.1,
    by decide⟩

/-- C10, as stated, fails: the round trip completes and returns a response with
status 200 (or 503), but closing the response body returns an error, and
`PushDevice` returns that error; and when the redirect policy gives up,
`client.Do` returns a response (302, clean close) together with an error, and
`PushDevice` returns that error although a response came back. -/
theorem C10_counterexample :
    (closeFailsEnv 200).clientDo 0
        (wakeRequest (closeFailsEnv 200) sampleBase "ABC123" 1700003600) =
      .response { StatusCode := 200,
                  Body := { data := [], readErr := none, closeErr := some "close failed" } } ∧
    (PushDevice (closeFailsEnv 200) "ABC123" World.init).2 =
      some "PushDevice: close failed" ∧
    (PushDevice (closeFailsEnv 503) "ABC123" World.init).2 =
      some "PushDevice: close failed" ∧
    (redirectFailsEnv.clientDo 0
        (wakeRequest redirectFailsEnv sampleBase "ABC123" 1700003600)).resp =
      some { StatusCode := 302,
             Body := { data := [], readErr := none, closeErr := none } } ∧
    (PushDevice redirectFailsEnv "ABC123" World.init).2 =
      some "PushDevice: stopped after 10 redirects" := by
  decide

/-- C10, amended: `PushDevice` returns an error if and only if the server URL
cannot be built, the request cannot be built, `client.Do` returns an error (a
failure to send, which comes with no response, or a failed redirect policy,
which comes with a response), or closing the response body fails. For every
UDID and every HTTP status code (2xx or not), whenever `client.Do` returns a
response and no error, `PushDevice` returns no error when the body closes
cleanly and the wrapped close error otherwise; whenever `client.Do` returns an
error, with or without a response, `PushDevice` returns that error wrapped;
every error it returns is wrapped with the context `PushDevice`. -/
theorem C10_PushDevice_error_iff (env : Env) (udid : String) (w : World) :
    (∀ e, (PushDevice env udid w).2 = some e → ∃ cause, e = errors.Wrap cause "PushDevice") ∧
    ((PushDevice env udid w).2 = none ↔
      ∃ base u resp,
        env.urlParse env.ServerURL = .ok base ∧
        env.urlParse
          (wakeRequest env base udid (wrapInt64 (env.now w.reads + 3600))).URL = .ok u ∧
        (env.clientDo w.sent.length
          (wakeRequest env base udid (wrapInt64 (env.now w.reads + 3600)))).err = none ∧
        (env.clientDo w.sent.length
          (wakeRequest env base udid (wrapInt64 (env.now w.reads + 3600)))).resp = some resp ∧
        resp.Body.closeErr = none) ∧
    (∀ cause, env.urlParse env.ServerURL = .error cause →
      (PushDevice env udid w).2 = some (errors.Wrap cause "PushDevice")) ∧
    (∀ base cause,
      env.urlParse env.ServerURL = .ok base →
      env.urlParse
        (wakeRequest env base udid (wrapInt64 (env.now w.reads + 3600))).URL = .error cause →
      (PushDevice env udid w).2 = some (errors.Wrap cause "PushDevice")) ∧
    (∀ base u,
      env.urlParse env.ServerURL = .ok base →
      env.urlParse
        (wakeRequest env base udid (wrapInt64 (env.now w.reads + 3600))).URL = .ok u →
      (∀ cause,
        (env.clientDo w.sent.length
          (wakeRequest env base udid (wrapInt64 (env.now w.reads + 3600)))).err = some cause →
        (PushDevice env udid w).2 = some (errors.Wrap cause "PushDevice")) ∧
      (∀ resp,
        (env.clientDo w.sent.length
          (wakeRequest env base udid (wrapInt64 (env.now w.reads + 3600)))).err = none →
        (env.clientDo w.sent.length
          (wakeRequest env base udid (wrapInt64 (env.now w.reads + 3600)))).resp = some resp →
        (PushDevice env udid w).2 =
          resp.Body.closeErr.map (fun err => errors.Wrap err "PushDevice"))) := by
  cases hparse : env.urlParse env.ServerURL with
  | error cause =>
    have hres : (PushDevice env udid w).2 = some (errors.Wrap cause "PushDevice") := by
      simp [PushDevice, hparse]
    rw [hres]
    refine ⟨?_, ?_, ?_, ?_, ?_⟩
    · intro e he
      exact ⟨cause, (Option.some.inj he).symm⟩
    · simp
    · intro c hc
      cases hc
      rfl
    · intro base c hb
      cases hb
    · intro base u hb
      cases hb
  | ok base =>
    cases hbuild : env.urlParse
        (wakeRequest env base udid (wrapInt64 (env.now w.reads + 3600))).URL with
    | error cause =>
      have hres : (PushDevice env udid w).2 = some (errors.Wrap cause "PushDevice") := by
        have hreq : http.NewRequest env "GET"
            (wakeRequest env base udid (wrapInt64 (env.now w.reads + 3600))).URL none =
            .error cause := by
          simp [http.NewRequest, hbuild]
        simp only [wakeRequest] at hreq
        simp [PushDevice, hparse, timeNowUnix, hreq]
      rw [hres]
      refine ⟨?_, ?_, ?_, ?_, ?_⟩
      · intro e he
        exact ⟨cause, (Option.some.inj he).symm⟩
      · constructor
        · intro h; cases h
        · rintro ⟨b, u, resp, hb, hu, _⟩
          cases hb
          rw [hbuild] at hu
          cases hu
      · intro c hc
        cases hc
      · intro b c hb hc
        cases hb
        rw [hbuild] at hc
        cases hc
        rfl
      · intro b u hb hu
        cases hb
        rw [hbuild] at hu
        cases hu
    | ok u =>
      rw [PushDevice_eq env base u udid w hparse hbuild]
      simp only
      cases hdo : env.clientDo w.sent.length
          (wakeRequest env base udid (wrapInt64 (env.now w.reads + 3600))) with
      | failure err =>
        dsimp only
        refine ⟨?_, ?_, ?_, ?_, ?_⟩
        · intro e he
          exact ⟨err, (Option.some.inj he).symm⟩
        · constructor
          · intro h; cases h
          · rintro ⟨b, u', resp, hb, _, he, _⟩
            cases hb
            rw [hdo] at he
            cases he
        · intro c hc
          cases hc
        · intro b c hb hc
          cases hb
          rw [hbuild] at hc
          cases hc
        · intro b u' hb _
          cases hb
          rw [hdo]
          refine ⟨?_, ?_⟩
          · intro c hc
            cases hc
            rfl
          · intro resp he
            cases he
      | redirectFailure resp0 err =>
        dsimp only
        refine ⟨?_, ?_, ?_, ?_, ?_⟩
        · intro e he
          exact ⟨err, (Option.some.inj he).symm⟩
        · constructor
          · intro h; cases h
          · rintro ⟨b, u', resp, hb, _, he, _⟩
            cases hb
            rw [hdo] at he
            cases he
        · intro c hc
          cases hc
        · intro b c hb hc
          cases hb
          rw [hbuild] at hc
          cases hc
        · intro b u' hb _
          cases hb
          rw [hdo]
          refine ⟨?_, ?_⟩
          · intro c hc
            cases hc
            rfl
          · intro resp he
            cases he
      | response resp0 =>
        dsimp only
        refine ⟨?_, ?_, ?_, ?_, ?_⟩
        · intro e he
          cases hc : resp0.Body.closeErr with
          | none => rw [hc] at he; cases he
          | some cause =>
            rw [hc] at he
            exact ⟨cause, (Option.some.inj he).symm⟩
        · constructor
          · intro h
            refine ⟨base, u, resp0, rfl, hbuild, ?_, ?_, ?_⟩
            · rw [hdo]; rfl
            · rw [hdo]; rfl
            · cases hc : resp0.Body.closeErr with
              | none => rfl
              | some cause => rw [hc] at h; cases h
          · rintro ⟨b, u', resp, hb, _, _, hr, hc⟩
            cases hb
            rw [hdo] at hr
            cases hr
            rw [hc]
            rfl
        · intro c hc
          cases hc
        · intro b c hb hc
          cases hb
          rw [hbuild] at hc
          cases hc
        · intro b u' hb _
          cases hb
          rw [hdo]
          refine ⟨?_, ?_⟩
          · intro c hc
            cases hc
          · intro resp _ hr
            cases hr
            rfl

/-- The amended C10 at `sampleEnv`, whose round trips answer 200 with a body
that closes cleanly: `PushDevice` returns nil. -/
theorem C10_witness :
    sampleEnv.urlParse sampleEnv.ServerURL = .ok sampleBase ∧
    (PushDevice sampleEnv "ABC123" World.init).2 = none :=
  ⟨rfl,
    (C10_PushDevice_error_iff sampleEnv "ABC123" World.init).2.1.mpr
      ⟨sampleBase,
        { Scheme := "", Host := "", RawQuery := "",
          Path := "https://mdm.example.com/push/ABC123?expiration=1700003600" },
        { StatusCode := 200, Body := { data := [], readErr := none, closeErr := none } },
        rfl, rfl, rfl, rfl, rfl⟩⟩

end director
